import Mathlib

/-!
Verification development for the ARIA call-screener (src/app.py).

The Python program is shallowly embedded here: the mutable module-level
registries (`call_sessions`, `pending_relay`, `appointments`, the contacts
whitelist, the VIP list, the DND flag, `caller_history`, `daily_call_log`)
become the fields of `State`; each Flask webhook handler becomes a pure
function `State → ... → State × List Cmd` where `Cmd` records the
telephony control-plane commands and outbound SMS the handler issues, in
order.  External network calls (the OpenAI decision adapter, the number
lookup, name extraction, caller-type detection, voicemail summarisation)
are modelled by an `Env` record supplying their results for the one event
being handled; `none` models the call raising an exception, matching the
`try/except` structure of the source.  Python dict-`get` truthiness
(`None` and `""` are falsy) is modelled explicitly by `truthyS`/`orS`.
-/

set_option maxHeartbeats 4000000

namespace CallScreener

/-- Python truthiness of an optional string: `None` and `""` are falsy. -/
def truthyS : Option String → Bool
  | none => false
  | some s => !(s == "")

/-- Python `x or d` for an optional string `x` (falsy: `None`, `""`). -/
def orS (o : Option String) (d : String) : String :=
  match o with
  | none => d
  | some s => if s == "" then d else s

/-- Python `x or d` for an optional int `x` (falsy: `None`, `0`). -/
def orI (o : Option Int) (d : Int) : Int :=
  match o with
  | none => d
  | some u => if u == 0 then d else u

/-- Python truthiness of an optional int. -/
def truthyI : Option Int → Bool
  | none => false
  | some u => !(u == 0)

/-- Python `str(x)` of an optional value: `None` prints as "None". -/
def pyStr (o : Option String) : String := o.getD "None"

/-- Does the character list start with the given needle. -/
def startsWithL : List Char → List Char → Bool
  | [], _ => true
  | _ :: _, [] => false
  | c :: cs, d :: ds => c == d && startsWithL cs ds

/-- Is `needle` a contiguous sublist of the second argument. -/
def subList (needle : List Char) : List Char → Bool
  | [] => needle.isEmpty
  | d :: ds => startsWithL needle (d :: ds) || subList needle ds

/-- Python `needle in hay` on strings. -/
def strContains (hay needle : String) : Bool := subList needle.data hay.data

/-- Drop leading whitespace from a char list. -/
def stripL : List Char → List Char
  | [] => []
  | c :: cs => if c.isWhitespace then stripL cs else c :: cs

/-- Python `s.strip()`: drop whitespace from both ends. -/
def pstrip (s : String) : String := ⟨stripL (stripL s.data.reverse).reverse⟩

/-- Python `s.upper()`. -/
def pupper (s : String) : String := ⟨s.data.map Char.toUpper⟩

/-- Python `s.lower()`. -/
def plower (s : String) : String := ⟨s.data.map Char.toLower⟩

/-- Python `s[n:]` (strings as sequences of code points). -/
def pdrop (s : String) (n : Nat) : String := ⟨s.data.drop n⟩

/-- Python `s[:n]`. -/
def ptake (s : String) (n : Nat) : String := ⟨s.data.take n⟩

/-- Python `s.startswith(p)`. -/
def pstarts (s p : String) : Bool := startsWithL p.data s.data

/-- Python `sep.join(xs)`. -/
def pjoin (sep : String) : List String → String
  | [] => ""
  | [x] => x
  | x :: y :: xs => x ++ sep ++ pjoin sep (y :: xs)

/-- Python `s.replace(pat, rep)` for a non-empty pattern: replace
non-overlapping occurrences left to right (fuel-bounded recursion). -/
def replaceFuel (pat rep : List Char) : Nat → List Char → List Char
  | _, [] => []
  | 0, l => l
  | n + 1, c :: cs =>
      if !pat.isEmpty && startsWithL pat (c :: cs) then
        rep ++ replaceFuel pat rep n (List.drop (pat.length - 1) cs)
      else c :: replaceFuel pat rep n cs

/-- Python `s.replace(pat, rep)`. -/
def preplace (s pat rep : String) : String :=
  ⟨replaceFuel pat.data rep.data s.data.length s.data⟩

/-- Python `s.split("_")[0]`: the part before the first underscore. -/
def firstField (s : String) : String := ⟨s.data.takeWhile fun c => !(c == '_')⟩

/-- Last `n` elements of a list, Python `l[-n:]`. -/
def lastN {α : Type} (n : Nat) (l : List α) : List α := l.drop (l.length - n)

/-- Association-list lookup, Python `d.get(k)` (dicts keep one entry per key). -/
def aget {α : Type} : List (String × α) → String → Option α
  | [], _ => none
  | (k1, v1) :: t, k => if k1 == k then some v1 else aget t k

/-- Association-list write, Python `d[k] = v`: an existing key keeps its
position (Python 3.7 dict insertion order), a new key is appended. -/
def aset {α : Type} : List (String × α) → String → α → List (String × α)
  | [], k, v => [(k, v)]
  | (k1, v1) :: t, k, v => if k1 == k then (k1, v) :: t else (k1, v1) :: aset t k v

/-- Association-list delete, Python `d.pop(k, None)`. -/
def adel {α : Type} : List (String × α) → String → List (String × α)
  | [], _ => []
  | (k1, v1) :: t, k => if k1 == k then t else (k1, v1) :: adel t k

/-- Keys of an association list. -/
def akeys {α : Type} (l : List (String × α)) : List String := l.map Prod.fst

-- ── Data model ──

/-- Result of `lookup_number` (src/app.py lines 141-221), as the dict the
function returns.  `lookup_summary` models the key probed at line 1236,
which the lookup prompt never produces but a JSON response could carry. -/
structure LookupResult where
  is_spam : Bool := false
  is_business : Bool := false
  business_name : Option String := none
  spam_score : Int := 0
  summary : String := ""
  lookup_summary : Option String := none
deriving Repr, DecidableEq

/-- The decision adapter's JSON reply (`ai_conversation_turn`, lines 897-905):
every field is read with `.get`, so all are optional. -/
structure DecisionResult where
  action : Option String := none
  message : Option String := none
  name : Option String := none
  purpose : Option String := none
  urgency : Option Int := none
  caller_type : Option String := none
  scheduled_time : Option String := none
deriving Repr, DecidableEq

/-- The voicemail follow-up adapter's JSON reply (`ai_voicemail_followup`). -/
structure FollowupResult where
  done : Bool := false
  question : Option String := none
deriving Repr, DecidableEq

/-- One `call_sessions[ccid]` dict.  Missing dict keys read through `.get`
are falsy in Python, so every field defaults to its falsy value; a session
dict created by `start_voicemail` on an unknown ccid has no `caller_id`
key, hence `caller_id : Option String`. -/
structure Session where
  caller_id : Option String := none
  history : List (String × String) := []
  turns : Nat := 0
  deciding : Bool := false
  voicemail : Bool := false
  urgent_check : Bool := false
  relay_sent : Bool := false
  scheduling : Bool := false
  caller_name : Option String := none
  caller_purpose : Option String := none
  caller_urgency : Option Int := none
  caller_type : Option String := none
  vm_turns : Nat := 0
  vm_history : List (String × Option String) := []
  vm_transcript_parts : List String := []
  voicemail_caller : Option String := none
  voicemail_reason : Option String := none
  lookup : Option LookupResult := none
  lookup_business : Option String := none
  relay_time : Option String := none
deriving Repr, DecidableEq

/-- The fully-initialised session dict created at call.initiated /
call.answered / call.transcription (src/app.py lines 1205-1212). -/
def freshSession (caller_id : String) : Session := { caller_id := some caller_id }

/-- One `caller_history["callers"][caller_id]` record; voicemails stores
the summaries (the dates are timestamps irrelevant to the claims). -/
structure CallerRec where
  name : Option String := none
  first_call : String := ""
  last_call : String := ""
  call_count : Nat := 0
  last_action : Option String := none
  last_purpose : Option String := none
  last_urgency : Option Int := none
  caller_type : Option String := none
  lookup_summary : Option String := none
  notes : List String := []
  voicemails : List String := []
deriving Repr, DecidableEq

/-- One appointment record (`book_appointment`). -/
structure Appt where
  name : String
  number : String
  time_str : String
  purpose : String
  booked_at : String
deriving Repr, DecidableEq

/-- One `daily_call_log` entry (`log_daily_call`). -/
structure DailyEntry where
  time : String
  caller_id : String
  name : String
  action : String
  purpose : String
  date : String
deriving Repr, DecidableEq

/-- The contacts whitelist file `contacts_whitelist.json`. -/
structure Contacts where
  approved_names : List String := []
  approved_numbers : List String := []
deriving Repr, DecidableEq

/-- A telephony control-plane command or outbound SMS issued by a handler. -/
inductive Cmd where
  | answer (ccid : String)
  | speak (ccid : String) (message : String) (client_state : Option String)
  | transcriptionStart (ccid : String)
  | transcriptionStop (ccid : String)
  | recordStart (ccid : String) (client_state : Option String)
  | recordStop (ccid : String)
  | transfer (ccid : String) (dest : Option String)
  | hangup (ccid : String)
  | sms (dest : Option String) (text : String)
deriving Repr, DecidableEq

/-- Environment configuration read from env vars at module load. -/
structure Config where
  scott : Option String := none
  telnyx_number : String := "+16159495810"
  quiet_start : Int := 21
  quiet_end : Int := 7
deriving Repr, DecidableEq

/-- Results of the external calls made while handling one event: `none`
models the call raising (caught by the source's `try/except`).  The time
fields model the `datetime.now` formattings used in messages and logs. -/
structure Env where
  lookupRes : LookupResult := {}
  quiet : Bool := false
  decision : Option DecisionResult := none
  followup : Option FollowupResult := none
  detect : String := "unknown"
  extract : Option String := none
  vmSummary : Option String := none
  now : String := ""
  nowDate : String := ""
  clock : String := ""
  timeStr : String := ""
  nowBD : String := ""
  nowABD : String := ""
deriving Repr, DecidableEq

/-- All module-level mutable state of src/app.py. -/
structure State where
  sessions : List (String × Session) := []
  pending : List (String × String) := []
  appointments : List Appt := []
  dnd : Bool := false
  vip : List String := []
  contacts : Contacts := {}
  callers : List (String × CallerRec) := []
  dailyLog : List DailyEntry := []
deriving Repr, DecidableEq

def State.empty : State := {}

-- ── Contacts helpers (lines 307-334) ──

/-- `name_in_whitelist` (lines 315-321). -/
def name_in_whitelist (contacts : Contacts) (text : String) : Bool :=
  let text_lower := pstrip (plower text)
  contacts.approved_names.any fun contact =>
    strContains text_lower (plower contact) || strContains (plower contact) text_lower

/-- `number_in_whitelist` (lines 323-325). -/
def number_in_whitelist (contacts : Contacts) (caller_id : String) : Bool :=
  contacts.approved_numbers.contains caller_id

/-- `add_number_to_whitelist` (lines 327-334); returns the new contacts and
whether the number was added. -/
def add_number_to_whitelist (contacts : Contacts) (number : String) : Contacts × Bool :=
  if contacts.approved_numbers.contains number then (contacts, false)
  else ({ contacts with approved_numbers := contacts.approved_numbers ++ [number] }, true)

-- ── Caller history (lines 391-419, 270-282) ──

/-- `update_caller_record` (lines 395-418): Python truthiness guards each
optional argument (`if name:` skips both `None` and `""`; urgency is
guarded by `is not None`). -/
def update_caller_record (callers : List (String × CallerRec)) (now caller_id : String)
    (name action voicemail_summary purpose : Option String) (urgency : Option Int)
    (caller_type lookup_summary : Option String) (increment_count : Bool) :
    List (String × CallerRec) :=
  let rec0 := (aget callers caller_id).getD { first_call := now, last_call := now }
  let rec1 := { rec0 with last_call := now }
  let rec2 := if increment_count then { rec1 with call_count := rec1.call_count + 1 } else rec1
  let rec3 := if truthyS name then { rec2 with name := name } else rec2
  let rec4 := if truthyS action then { rec3 with last_action := action } else rec3
  let rec5 := if truthyS purpose then { rec4 with last_purpose := purpose } else rec4
  let rec6 := if urgency.isSome then { rec5 with last_urgency := urgency } else rec5
  let rec7 := if truthyS caller_type then { rec6 with caller_type := caller_type } else rec6
  let rec8 := if truthyS lookup_summary then { rec7 with lookup_summary := lookup_summary } else rec7
  let rec9 := if truthyS voicemail_summary then
      { rec8 with voicemails := lastN 5 (rec8.voicemails ++ [voicemail_summary.getD ""]) }
    else rec8
  aset callers caller_id rec9

/-- `get_caller_record` (lines 391-392). -/
def get_caller_record (callers : List (String × CallerRec)) (caller_id : String) :
    Option CallerRec :=
  aget callers caller_id

/-- `add_caller_note` (lines 270-282). -/
def add_caller_note (callers : List (String × CallerRec)) (now caller_id note : String) :
    List (String × CallerRec) :=
  let rec0 := (aget callers caller_id).getD { first_call := now, last_call := now }
  let rec1 := { rec0 with
    notes := lastN 10 (rec0.notes ++ ["[" ++ ptake now 10 ++ "] " ++ note]) }
  aset callers caller_id rec1

/-- `get_caller_stats` (lines 285-300). -/
structure Stats where
  total : Nat
  spam_blocked : Nat
  forwarded : Nat
  voicemails_left : Nat
  frequent_callers : List String
deriving Repr, DecidableEq

def get_caller_stats (callers : List (String × CallerRec)) : Stats :=
  { total := callers.length
    spam_blocked := (callers.filter fun p => p.2.last_action == some "block").length
    forwarded := (callers.filter fun p => strContains (p.2.last_action.getD "") "forward").length
    voicemails_left := (callers.filter fun p => !p.2.voicemails.isEmpty).length
    frequent_callers :=
      ((callers.filter fun p => p.2.call_count ≥ 3).map fun p => orS p.2.name p.1).take 5 }

-- ── Daily call log (lines 87-128) ──

/-- `log_daily_call` (lines 87-101): append, keep the last 100 entries. -/
def log_daily_call (env : Env) (log : List DailyEntry) (caller_id : String)
    (name action purpose : Option String) : List DailyEntry :=
  let e : DailyEntry :=
    { time := env.clock, caller_id := caller_id, name := orS name "Unknown"
      action := orS action "unknown", purpose := orS purpose "unknown", date := env.nowDate }
  let l2 := log ++ [e]
  if l2.length > 100 then l2.drop 1 else l2

/-- `build_daily_summary` (lines 103-128). -/
def build_daily_summary (env : Env) (log : List DailyEntry) : String :=
  let today_calls := log.filter fun c => c.date == env.nowDate
  if today_calls.isEmpty then
    "📊 ARIA Daily Summary — " ++ env.nowBD ++ "\nNo calls today."
  else
    let total := today_calls.length
    let forwarded := (today_calls.filter fun c => strContains c.action "forward").length
    let voicemails := (today_calls.filter fun c => strContains c.action "voicemail").length
    let blocked := (today_calls.filter fun c => strContains c.action "block").length
    let relayed := (today_calls.filter fun c => strContains c.action "relay").length
    let emojiFor := fun (a : String) =>
      let f := firstField a
      if f == "forward" then "✅"
      else if f == "voicemail" then "📬"
      else if f == "block" then "🚫"
      else if f == "relay" then "📲"
      else "📞"
    let entries := (lastN 10 today_calls).map fun c =>
      emojiFor c.action ++ " " ++ c.time ++ " — " ++ c.name ++ " — " ++ c.purpose
    pjoin "\n"
      (("📊 ARIA Daily Summary — " ++ env.nowABD) ::
       ("Total calls: " ++ toString total ++ "  |  Forwarded: " ++ toString forwarded ++
        "  |  Voicemails: " ++ toString voicemails ++ "  |  Blocked: " ++ toString blocked ++
        "  |  Relayed: " ++ toString relayed) :: "" :: entries)

-- ── Appointments (lines 556-584) ──

/-- `book_appointment` (lines 556-576): store the appointment verbatim and
notify the subscriber by SMS. -/
def book_appointment (cfg : Config) (env : Env) (st : State)
    (name number time_str purpose : String) : State × List Cmd :=
  let appt : Appt :=
    { name := name, number := number, time_str := time_str, purpose := purpose
      booked_at := env.now }
  ({ st with appointments := st.appointments ++ [appt] },
   [Cmd.sms cfg.scott
     ("📅 ARIA — Callback Scheduled\nName: " ++ name ++ " (" ++ number ++ ")\nTime: " ++
      time_str ++ "\nRe: " ++ purpose ++ "\n\nReply APPTS to see all scheduled callbacks.")])

/-- `list_appointments` (lines 578-584). -/
def list_appointments (l : List Appt) : String :=
  if l.isEmpty then "No callbacks currently scheduled."
  else
    pjoin "\n"
      ("📅 Scheduled Callbacks:" ::
       l.enum.map fun p =>
         toString (p.1 + 1) ++ ". " ++ p.2.name ++ " (" ++ p.2.number ++ ") — " ++
         p.2.time_str ++ " — Re: " ++ p.2.purpose)

-- ── Urgency tier and relay SMS (lines 512-529) ──

/-- The urgency tier computed at src/app.py line 517. -/
def urgency_bar (urgency : Int) : String :=
  if urgency ≥ 8 then "🔴 HIGH" else if urgency ≥ 5 then "🟡 MED" else "🟢 LOW"

/-- `send_relay_sms` (lines 512-529): notify the operator and create the
pending-relay entry for this caller. -/
def send_relay_sms (cfg : Config) (st : State) (ccid caller_id : String)
    (name purpose : Option String) (urgency : Int) (caller_type : Option String) :
    State × List Cmd :=
  let caller_rec := get_caller_record st.callers caller_id
  let call_count := (caller_rec.map CallerRec.call_count).getD 1
  let history_note := if call_count > 1 then " (call #" ++ toString call_count ++ ")"
    else " (first call)"
  let display_name := if truthyS name then name.getD "" else "Unknown caller"
  let type_note := if truthyS caller_type then "\nType: " ++ caller_type.getD "" else ""
  let msg :=
    "📲 ARIA — Incoming Call" ++ history_note ++ "\nFrom: " ++ display_name ++ " (" ++
    caller_id ++ ")" ++ type_note ++ "\nRe: " ++ pyStr purpose ++ "\nUrgency: " ++
    urgency_bar urgency ++ " (" ++ toString urgency ++ "/10)\n\n" ++
    "Reply FORWARD, VM, or SCHEDULE to book a callback."
  ({ st with pending := aset st.pending caller_id ccid }, [Cmd.sms cfg.scott msg])

/-- `build_briefing` (lines 536-549). -/
def build_briefing (callers : List (String × CallerRec)) (caller_id : String)
    (name purpose : Option String) (urgency : Option Int) (caller_type : Option String) :
    String :=
  let caller_rec := get_caller_record callers caller_id
  let call_count := (caller_rec.map CallerRec.call_count).getD 1
  let display := if truthyS name then name.getD "" else "an unknown caller"
  let count_note := if call_count > 1 then
      "This is their call number " ++ toString call_count ++ ". " else ""
  let urgency_note := if truthyI urgency && urgency.getD 0 ≥ 8 then "They say it is urgent. "
    else ""
  let type_note := if truthyS caller_type then
      "They appear to be a " ++ caller_type.getD "" ++ ". " else ""
  "Heads up Scott. Connecting you now with " ++ display ++ ". " ++ count_note ++ type_note ++
  "They are calling about: " ++ pyStr purpose ++ ". " ++ urgency_note ++ "Go ahead."

-- ── Voicemail (lines 642-755) ──

/-- `ai_voicemail_followup` (lines 642-689): after 2 follow-up turns the
loop wraps up without asking the adapter; an adapter error (`env.followup
= none`) also yields done. -/
def ai_voicemail_followup (env : Env) (transcript : String) (s : Session) : FollowupResult :=
  if s.vm_turns ≥ 2 then { done := true, question := none }
  else
    match env.followup with
    | some r => r
    | none => { done := true, question := none }

/-- `start_voicemail` (lines 696-709): flips the session's voicemail flag
(creating a minimal session dict if the ccid is unknown) and speaks the
intake prompt. -/
def start_voicemail (st : State) (ccid caller_id reason : String) : State × List Cmd :=
  let s0 := (aget st.sessions ccid).getD {}
  let s1 := { s0 with
    voicemail := true, voicemail_caller := some caller_id, voicemail_reason := some reason
    vm_turns := 0, vm_history := [], vm_transcript_parts := [] }
  ({ st with sessions := aset st.sessions ccid s1 },
   [Cmd.speak ccid
     ("Scott is not available right now. Please leave your name, " ++
      "a brief message, and the best way to reach you.")
     (some "voicemail_prompt")])

/-- `finalize_voicemail` (lines 711-755): summarise (adapter failure keeps
the raw transcript), persist, notify, speak the closing line, stop
recording, hang up, and destroy the session. -/
def finalize_voicemail (cfg : Config) (env : Env) (st : State) (ccid caller_id : String)
    (s : Session) : State × List Cmd :=
  let full_transcript := pjoin " " s.vm_transcript_parts
  let clean := match env.vmSummary with
    | some c => c
    | none => full_transcript
  let callers1 := update_caller_record st.callers env.now caller_id none (some "voicemail")
    (some clean) s.caller_purpose s.caller_urgency s.caller_type none false
  let caller_rec := aget callers1 caller_id
  let stored_name : Option String :=
    if truthyS s.caller_name then s.caller_name else caller_rec.bind CallerRec.name
  let display := if truthyS stored_name then stored_name.getD "" ++ " (" ++ caller_id ++ ")"
    else caller_id
  let urgency_str := match s.caller_urgency with
    | some u => "\nUrgency: " ++ toString u ++ "/10"
    | none => ""
  let purpose_str := if truthyS s.caller_purpose then "\nRe: " ++ s.caller_purpose.getD ""
    else ""
  let type_str := if truthyS s.caller_type then "\nType: " ++ s.caller_type.getD "" else ""
  let msg := "📞 Voicemail from " ++ display ++ ":" ++ type_str ++ purpose_str ++
    urgency_str ++ "\n" ++ clean
  ({ st with callers := callers1, sessions := adel st.sessions ccid },
   [Cmd.sms cfg.scott msg,
    Cmd.speak ccid
      ("Thank you. Your message has been saved and Scott will get back to you. " ++
       "Have a great day. Goodbye.")
      (some "screened"),
    Cmd.recordStop ccid,
    Cmd.hangup ccid])

-- ── Conversational screening helpers (lines 591-635, 762-925) ──

/-- The phrase set of `looks_like_greeting_echo` (lines 762-766). -/
def echo_phrases : List String :=
  ["scott lumley", "ai assistant", "how may i help", "you have reached",
   "aria", "i am aria", "hello this is aria"]

/-- `looks_like_greeting_echo` (lines 762-766). -/
def looks_like_greeting_echo (transcript : String) : Bool :=
  echo_phrases.any fun p => strContains (plower transcript) p

/-- `extract_name_from_transcript` (lines 768-782): the adapter result is
supplied by the environment; `none` also models the except branch. -/
def extract_name_from_transcript (env : Env) (transcript : String) : Option String :=
  env.extract

/-- `detect_caller_type` (lines 591-614): the adapter result is supplied by
the environment; the except branch returns "unknown", which the
environment can also supply. -/
def detect_caller_type (env : Env) (transcript purpose : String) : String :=
  env.detect

/-- The fail-closed fallback decision of `ai_conversation_turn`
(lines 918-925). -/
def fallback_decision : DecisionResult :=
  { action := some "speak"
    message := some "I\x27m sorry, could you say that again? Who am I speaking with?"
    name := none, purpose := none, urgency := none, caller_type := none
    scheduled_time := none }

/-- `ai_conversation_turn` (lines 785-925): the adapter's parsed JSON reply
is supplied by the environment; `none` models any exception (timeout,
malformed response), which the source catches and maps to
`fallback_decision`. -/
def ai_conversation_turn (env : Env) (history : List (String × String)) (caller_id : String)
    (turns : Nat) (s : Session) : DecisionResult :=
  match env.decision with
  | some r => r
  | none => fallback_decision

/-- The opt-out keywords scanned while a caller is on relay hold
(src/app.py line 1413). -/
def hold_keywords : List String :=
  ["voicemail", "message", "leave a message", "that\x27s fine", "no problem", "okay"]

/-- The session slot updates of one deciding cycle (src/app.py lines
1457-1473): adapter slots are applied additively under Python truthiness
(urgency under `is not None`), then the backup name extraction and the
caller-type detection fill still-missing slots. -/
def applySlotUpdates (s : Session) (result : DecisionResult) (extract : Option String)
    (detect : String) : Session :=
  let s1 := if truthyS result.name then { s with caller_name := result.name } else s
  let s2 := if truthyS result.purpose then { s1 with caller_purpose := result.purpose } else s1
  let s3 := if result.urgency.isSome then { s2 with caller_urgency := result.urgency } else s2
  let s4 := if truthyS result.caller_type then { s3 with caller_type := result.caller_type }
    else s3
  let s5 := if !truthyS s4.caller_name && truthyS extract then { s4 with caller_name := extract }
    else s4
  let s6 := if !truthyS s5.caller_type && truthyS s5.caller_purpose then
      (if detect != "" && detect != "unknown" then { s5 with caller_type := some detect }
       else s5)
    else s5
  s6

-- ── The transcription event: sub-flow branches (lines 1340-1552) ──

/-- The scheduling sub-flow branch of the transcription event (lines
1363-1377): the caller's raw utterance is booked verbatim and the call
terminates. -/
def schedulingBranch (cfg : Config) (env : Env) (st : State)
    (ccid caller_id transcript : String) (session : Session) : State × List Cmd :=
  let session := { session with scheduling := false }
  let st := { st with sessions := aset st.sessions ccid session }
  let name := orS session.caller_name "the caller"
  let purpose := orS session.caller_purpose "callback"
  let bk := book_appointment cfg env st name caller_id transcript purpose
  ({ bk.1 with sessions := adel bk.1.sessions ccid },
   Cmd.transcriptionStop ccid :: bk.2 ++
   [Cmd.speak ccid
      ("Perfect! I have you scheduled. Scott will call you back at " ++ transcript ++
       ". Thank you for calling and have a wonderful day. Goodbye.")
      (some "screened"),
    Cmd.hangup ccid])

/-- The voicemail sub-flow branch of the transcription event (lines
1379-1408): accumulate the fragment, optionally detect the caller type on
the first fragment, run the capped follow-up loop, and either finalize or
ask the follow-up question. -/
def vmBranch (cfg : Config) (env : Env) (st : State) (ccid caller_id transcript : String)
    (session : Session) : State × List Cmd :=
  let session := { session with
    vm_transcript_parts := session.vm_transcript_parts ++ [transcript] }
  let session :=
    if !truthyS session.caller_type && session.vm_turns == 0 then
      let detected := detect_caller_type env transcript (orS session.caller_purpose "")
      if detected != "" && detected != "unknown" then
        { session with caller_type := some detected }
      else session
    else session
  let followup := ai_voicemail_followup env transcript session
  let session := { session with
    vm_history := session.vm_history ++ [(transcript, followup.question)]
    vm_turns := session.vm_turns + 1 }
  let st := { st with sessions := aset st.sessions ccid session }
  if followup.done || !truthyS followup.question then
    let fin := finalize_voicemail cfg env st ccid (session.voicemail_caller.getD caller_id)
      session
    (fin.1, Cmd.transcriptionStop ccid :: fin.2)
  else
    (st, [Cmd.transcriptionStop ccid,
          Cmd.speak ccid (followup.question.getD "") none,
          Cmd.transcriptionStart ccid])

/-- The relay-hold branch of the transcription event (lines 1410-1425):
while on hold only the voicemail opt-out keywords act; anything else gets
a reassurance and keeps listening. -/
def holdBranch (cfg : Config) (env : Env) (st : State) (ccid caller_id transcript : String)
    (session : Session) : State × List Cmd :=
  let t_lower := plower transcript
  if hold_keywords.any (fun w => strContains t_lower w) then
    let st := { st with pending := adel st.pending caller_id }
    let session := { session with relay_sent := false }
    let st := { st with sessions := aset st.sessions ccid session }
    start_voicemail st ccid caller_id "caller chose voicemail while on hold"
  else
    (st, [Cmd.speak ccid
      ("Still checking with Scott. Thank you for your patience. " ++
       "Say voicemail anytime if you\x27d like to leave a message.")
      (some "relay_hold")])

/-- The deciding cycle of the transcription event (lines 1427-1552): guard,
echo filter, whitelist fast path, adapter turn, slot application, external
write-through, and the action dispatch. -/
def decidingCycle (cfg : Config) (env : Env) (st : State)
    (ccid caller_id transcript : String) (session : Session) : State × List Cmd :=
  let session := { session with deciding := true }
  let st := { st with sessions := aset st.sessions ccid session }
  if looks_like_greeting_echo transcript then
    let session := { session with deciding := false }
    ({ st with sessions := aset st.sessions ccid session },
     [Cmd.transcriptionStop ccid, Cmd.transcriptionStart ccid])
  else if name_in_whitelist st.contacts transcript then
    ({ st with sessions := adel st.sessions ccid },
     [Cmd.transcriptionStop ccid,
      Cmd.speak ccid "One moment, connecting you to Scott now." (some "briefing"),
      Cmd.transfer ccid cfg.scott])
  else
    let session := { session with history := session.history ++ [("user", transcript)] }
    let result := ai_conversation_turn env session.history caller_id session.turns session
    let session := { session with turns := session.turns + 1, deciding := false }
    let session := applySlotUpdates session result (extract_name_from_transcript env transcript)
      (detect_caller_type env transcript (session.caller_purpose.getD ""))
    let callers1 := update_caller_record st.callers env.now caller_id session.caller_name
      result.action none session.caller_purpose session.caller_urgency session.caller_type
      none false
    let log1 := log_daily_call env st.dailyLog caller_id session.caller_name result.action
      session.caller_purpose
    let action := result.action.getD "speak"
    let message := result.message.getD "Could you please repeat that?"
    let session := { session with history := session.history ++ [("assistant", message)] }
    let st := { st with sessions := aset st.sessions ccid session, callers := callers1
                        dailyLog := log1 }
    if action == "speak" then
      (st, [Cmd.transcriptionStop ccid, Cmd.speak ccid message none,
            Cmd.transcriptionStart ccid])
    else if action == "forward" then
      ({ st with sessions := adel st.sessions ccid },
       [Cmd.transcriptionStop ccid, Cmd.speak ccid message (some "briefing"),
        Cmd.transfer ccid cfg.scott])
    else if action == "relay" then
      if session.relay_sent then (st, [Cmd.transcriptionStop ccid])
      else
        let rl := send_relay_sms cfg st ccid caller_id session.caller_name
          session.caller_purpose (orI session.caller_urgency 5) session.caller_type
        let session := { session with relay_sent := true, relay_time := some env.now }
        ({ rl.1 with sessions := aset rl.1.sessions ccid session },
         Cmd.transcriptionStop ccid :: rl.2 ++
         [Cmd.speak ccid
            ("I\x27m checking with Scott right now. Please hold for just a moment. " ++
             "If you\x27d prefer, say voicemail and I can take a message instead.")
            (some "relay_hold")])
    else if action == "schedule" then
      let scheduled_time := orS result.scheduled_time transcript
      let bk := book_appointment cfg env st (orS session.caller_name "Unknown") caller_id
        scheduled_time (orS session.caller_purpose "callback")
      ({ bk.1 with sessions := adel bk.1.sessions ccid },
       Cmd.transcriptionStop ccid :: bk.2 ++
       [Cmd.speak ccid message (some "screened"), Cmd.hangup ccid])
    else if action == "voicemail" then
      let session := { session with voicemail := true, voicemail_caller := some caller_id }
      ({ st with sessions := aset st.sessions ccid session },
       [Cmd.transcriptionStop ccid, Cmd.speak ccid message (some "voicemail_prompt")])
    else
      ({ st with sessions := adel st.sessions ccid },
       [Cmd.transcriptionStop ccid, Cmd.speak ccid message (some "screened"),
        Cmd.hangup ccid])

/-- Dispatch of a final, non-empty transcript to the sub-flow branches in
source order (lines 1363-1552): scheduling, voicemail, relay hold, the
deciding re-entrancy guard, then the deciding cycle. -/
def transcriptionCore (cfg : Config) (env : Env) (st : State)
    (ccid caller_id transcript : String) (session : Session) : State × List Cmd :=
  if session.scheduling then schedulingBranch cfg env st ccid caller_id transcript session
  else if session.voicemail then vmBranch cfg env st ccid caller_id transcript session
  else if session.relay_sent && !session.voicemail then
    holdBranch cfg env st ccid caller_id transcript session
  else if session.deciding then (st, [])
  else decidingCycle cfg env st ccid caller_id transcript session

/-- The `call.transcription` event handler (lines 1340-1552): non-final or
empty transcripts are dropped; a missing session is lazily created. -/
def handleTranscription (cfg : Config) (env : Env) (st : State) (ccid caller_id : String)
    (rawTranscript : String) (is_final : Bool) : State × List Cmd :=
  let transcript := pstrip rawTranscript
  if !is_final || transcript == "" then (st, [])
  else
    match aget st.sessions ccid with
    | some session => transcriptionCore cfg env st ccid caller_id transcript session
    | none =>
        let session := freshSession caller_id
        transcriptionCore cfg env { st with sessions := aset st.sessions ccid session }
          ccid caller_id transcript session

-- ── The remaining call webhook events (lines 1189-1562) ──

/-- The `call.initiated` event handler (lines 1204-1213). -/
def handleInitiated (st : State) (ccid caller_id : String) : State × List Cmd :=
  ({ st with sessions := aset st.sessions ccid (freshSession caller_id) },
   [Cmd.answer ccid])

/-- The `call.answered` event handler (lines 1216-1299): whitelist/VIP
fast-connect, spam auto-block, quiet-hours and DND voicemail gating, or
the greeting that starts the conversation. -/
def handleAnswered (cfg : Config) (env : Env) (st : State) (ccid caller_id : String) :
    State × List Cmd :=
  let stSession : Session × State :=
    match aget st.sessions ccid with
    | some s => (s, st)
    | none =>
        let s := freshSession caller_id
        (s, { st with sessions := aset st.sessions ccid s })
  let session := stSession.1
  let st := stSession.2
  let st := { st with
    callers := (update_caller_record st.callers env.now caller_id none none none none none
      none none true) }
  let inWl := number_in_whitelist st.contacts caller_id
  let lookup : Option LookupResult := if inWl then none else some env.lookupRes
  let stSession2 : Session × State :=
    match lookup with
    | some lk =>
        let session := { session with lookup := some lk }
        let st := { st with sessions := aset st.sessions ccid session }
        let st := if truthyS lk.lookup_summary then
            { st with callers := (update_caller_record st.callers env.now caller_id none none
                none none none none (some lk.summary) false) }
          else st
        (session, st)
    | none => (session, st)
  let session := stSession2.1
  let st := stSession2.2
  if inWl || st.vip.contains caller_id then
    let caller_rec := get_caller_record st.callers caller_id
    let known_name := caller_rec.bind CallerRec.name
    let vip_note := if st.vip.contains caller_id && !inWl then
        " You\x27re on Scott\x27s VIP list." else ""
    let msg := if truthyS known_name then
        "Welcome back, " ++ known_name.getD "" ++ "!" ++ vip_note ++ " One moment."
      else "One moment, connecting you to Scott."
    ({ st with dailyLog := (log_daily_call env st.dailyLog caller_id known_name
        (some "forwarded_whitelist") (some "whitelisted/VIP contact")) },
     [Cmd.speak ccid msg (some "screened"), Cmd.transfer ccid cfg.scott])
  else if (match lookup with | some lk => decide (lk.spam_score ≥ 9) | none => false) then
    let st := { st with
      callers := (update_caller_record st.callers env.now caller_id none
        (some "auto_blocked_spam") none none none none none false) }
    (st,
     [Cmd.speak ccid "We\x27re sorry, this number has been identified as spam. Goodbye."
        (some "screened"),
      Cmd.hangup ccid,
      Cmd.sms cfg.scott
        ("🚫 ARIA auto-blocked spam call from " ++ caller_id ++ ".\nReason: " ++
         (match lookup with | some lk => lk.summary | none => "Confirmed spam"))])
  else if env.quiet then
    start_voicemail st ccid caller_id "quiet hours"
  else if st.dnd then
    start_voicemail st ccid caller_id "do not disturb"
  else
    let caller_rec := get_caller_record st.callers caller_id
    let known_name := caller_rec.bind CallerRec.name
    let last_purpose := caller_rec.bind CallerRec.last_purpose
    let known_type := caller_rec.bind CallerRec.caller_type
    let session :=
      match lookup with
      | some lk =>
          if lk.is_business && truthyS lk.business_name && !truthyS known_type then
            { session with caller_type := some "business", lookup_business := lk.business_name }
          else session
      | none => session
    let sessionGreeting : Session × String :=
      if truthyS known_name then
        let session := { session with caller_name := known_name }
        let session := if truthyS known_type then { session with caller_type := known_type }
          else session
        if truthyS last_purpose then
          (session,
           "Welcome back, " ++ known_name.getD "" ++ "! Last time you called about " ++
           last_purpose.getD "" ++ ". How can I help you today?")
        else (session, "Welcome back, " ++ known_name.getD "" ++ "! How can I help you today?")
      else
        (session,
         "Thank you for calling. You\x27ve reached Scott Lumley\x27s office. " ++
         "I\x27m ARIA, his personal assistant. May I ask who\x27s calling please?")
    ({ st with sessions := aset st.sessions ccid sessionGreeting.1 },
     [Cmd.speak ccid sessionGreeting.2 none, Cmd.transcriptionStart ccid])

/-- The `call.speak.ended` event handler (lines 1302-1328). -/
def handleSpeakEnded (st : State) (ccid client_state : String) : State × List Cmd :=
  if client_state == "voicemail_prompt" then
    (st, [Cmd.recordStart ccid (some "recording_voicemail"), Cmd.transcriptionStart ccid])
  else if client_state == "screened" || client_state == "briefing" then (st, [])
  else if client_state == "relay_hold" then
    match aget st.sessions ccid with
    | some s => if s.relay_sent then (st, [Cmd.transcriptionStart ccid]) else (st, [])
    | none => (st, [])
  else
    match aget st.sessions ccid with
    | some s => if !s.deciding && !s.voicemail then (st, [Cmd.transcriptionStart ccid])
        else (st, [])
    | none => (st, [])

/-- The `call.record.saved` event handler (lines 1331-1338). -/
def handleRecordSaved (st : State) (ccid : String) : State × List Cmd :=
  match aget st.sessions ccid with
  | some _ =>
      (st, [Cmd.speak ccid "Thank you. Your message has been saved. Goodbye." (some "screened"),
            Cmd.hangup ccid])
  | none => (st, [])

/-- The `call.hangup` event handler (lines 1555-1560): destroy the session
and clear the caller's pending relay. -/
def handleHangup (st : State) (ccid caller_id : String) : State × List Cmd :=
  let cid := match aget st.sessions ccid with
    | some s => s.caller_id.getD caller_id
    | none => caller_id
  ({ st with pending := adel st.pending cid, sessions := adel st.sessions ccid }, [])

/-- One telephony webhook event (lines 1191-1201). -/
structure Event where
  event_type : String := ""
  ccid : String := ""
  caller_id : String := "Unknown"
  direction : String := ""
  client_state : String := ""
  transcript : String := ""
  is_final : Bool := false
deriving Repr, DecidableEq

/-- The `/webhook` route (lines 1189-1562). -/
def webhook (cfg : Config) (env : Env) (ev : Event) (st : State) : State × List Cmd :=
  let session_exists := (aget st.sessions ev.ccid).isSome
  let is_outbound := ev.direction == "outgoing" ||
    (!session_exists && ev.caller_id == cfg.telnyx_number)
  if ev.event_type == "call.initiated" && !is_outbound then
    handleInitiated st ev.ccid ev.caller_id
  else if ev.event_type == "call.answered" && !is_outbound then
    handleAnswered cfg env st ev.ccid ev.caller_id
  else if ev.event_type == "call.speak.ended" then
    handleSpeakEnded st ev.ccid ev.client_state
  else if ev.event_type == "call.record.saved" then
    handleRecordSaved st ev.ccid
  else if ev.event_type == "call.transcription" then
    handleTranscription cfg env st ev.ccid ev.caller_id ev.transcript ev.is_final
  else if ev.event_type == "call.hangup" then
    handleHangup st ev.ccid ev.caller_id
  else (st, [])

-- ── The /sms route (lines 937-1186) ──

/-- `normalize a number` as the SMS commands do: prepend +1 and strip
dashes and spaces unless it already starts with "+". -/
def normalize_number (s : String) : String :=
  if pstarts s "+" then s else "+1" ++ preplace (preplace s "-" "") " " ""

/-- Split a char list at the first space, Python `s.split(" ", 1)`. -/
def breakSpace : List Char → Option (List Char × List Char)
  | [] => none
  | c :: cs =>
      if c == ' ' then some ([], cs)
      else
        match breakSpace cs with
        | some p => some (c :: p.1, p.2)
        | none => none

/-- Python `s.split(" ", 1)` when it yields two parts. -/
def splitOnceSpace (s : String) : Option (String × String) :=
  (breakSpace s.data).map fun p => (⟨p.1⟩, ⟨p.2⟩)

/-- The STATUS reply text (lines 1039-1061). -/
def status_reply (cfg : Config) (env : Env) (st : State) : String :=
  let quiet := if env.quiet then "ON" else "OFF"
  let dnd := if st.dnd then "🔕 ON" else "OFF"
  "📋 ARIA status:\nTime: " ++ env.timeStr ++ "\nDND: " ++ dnd ++ "\nQuiet hours: " ++
  quiet ++ " (" ++ toString cfg.quiet_start ++ "pm–" ++ toString cfg.quiet_end ++
  "am)\nApproved numbers: " ++ toString st.contacts.approved_numbers.length ++
  "\nApproved names: " ++ toString st.contacts.approved_names.length ++
  "\nVIP numbers: " ++ toString st.vip.length ++
  "\nCallers remembered: " ++ toString st.callers.length ++
  "\nCalls today: " ++ toString ((st.dailyLog.filter fun c => c.date == env.nowDate).length) ++
  "\nCalls waiting decision: " ++ toString st.pending.length ++
  "\nScheduled callbacks: " ++ toString st.appointments.length

/-- The HISTORY reply text (lines 1063-1080). -/
def history_reply (callers : List (String × CallerRec)) (number : String) : String :=
  match aget callers number with
  | some r =>
      let vms0 := pjoin "\n" ((lastN 3 r.voicemails).map fun v => "- " ++ v)
      let vms := if vms0 == "" then "none" else vms0
      let lastU := match r.last_urgency with
        | some u => if u == 0 then "unknown" else toString u
        | none => "unknown"
      "📋 " ++ number ++ "\nName: " ++ orS r.name "unknown" ++ "\nType: " ++
      orS r.caller_type "unknown" ++ "\nCalls: " ++ toString r.call_count ++
      "\nLast purpose: " ++ orS r.last_purpose "unknown" ++ "\nLast urgency: " ++ lastU ++
      "\nLast: " ++ ptake r.last_call 10 ++ "\nVoicemails:\n" ++ vms
  | none => "No history found for " ++ number

/-- The STATS reply text (lines 1096-1107). -/
def stats_reply (callers : List (String × CallerRec)) : String :=
  let stats := get_caller_stats callers
  let freq0 := pjoin ", " stats.frequent_callers
  let freq := if freq0 == "" then "none yet" else freq0
  "📊 ARIA Stats:\nTotal callers known: " ++ toString stats.total ++
  "\nSpam blocked: " ++ toString stats.spam_blocked ++
  "\nForwarded to Scott: " ++ toString stats.forwarded ++
  "\nLeft voicemails: " ++ toString stats.voicemails_left ++
  "\nFrequent callers: " ++ freq

/-- The help text of the final else branch (lines 1166-1184). -/
def sms_help_text : String :=
  "ARIA Commands:\nFORWARD or F → connect caller\nVM → voicemail\n" ++
  "SCHEDULE or S → book callback\nAPPTS → list callbacks\n" ++
  "ADD +1XXXXXXXXXX → whitelist\nREMOVE +1XXXXXXXXXX → unwhitelist\n" ++
  "VIP ADD +1XXXXXXXXXX → VIP tier\nVIP REMOVE +1XXXXXXXXXX\nVIP → list VIPs\n" ++
  "DND ON / DND OFF → do not disturb\nSTATUS → system status\n" ++
  "STATS → call statistics\nSUMMARY → today\x27s call log\nHISTORY +1XXXXXXXXXX\n" ++
  "LOOKUP +1XXXXXXXXXX\nNOTE +1XXXXXXXXXX your note"

/-- The live relay command branch of the SMS handler (lines 975-1012):
FORWARD/F, VM/VOICEMAIL and SCHEDULE/S each resolve the single oldest
pending relay entry. -/
def smsRelayCommand (cfg : Config) (env : Env) (st : State) (text : String) :
    State × List Cmd :=
  match st.pending with
  | [] => (st, [Cmd.sms cfg.scott "ℹ️ No calls currently waiting for your decision."])
  | (relay_caller_id, relay_ccid) :: _ =>
      let session := (aget st.sessions relay_ccid).getD {}
      let name := session.caller_name
      let purpose := session.caller_purpose
      let urgency := session.caller_urgency
      let caller_type := session.caller_type
      if text == "FORWARD" || text == "F" then
        let st := { st with pending := adel st.pending relay_caller_id }
        let briefing := build_briefing st.callers relay_caller_id name purpose urgency
          caller_type
        let st := { st with
          callers := (update_caller_record st.callers env.now relay_caller_id none
            (some "forwarded_by_scott") none purpose urgency caller_type none false) }
        ({ st with sessions := adel st.sessions relay_ccid },
         [Cmd.speak relay_ccid briefing (some "briefing"),
          Cmd.transfer relay_ccid cfg.scott,
          Cmd.sms cfg.scott ("✅ Connecting " ++ orS name relay_caller_id ++ " now.")])
      else if text == "VM" || text == "VOICEMAIL" then
        let st := { st with pending := adel st.pending relay_caller_id }
        let vm := start_voicemail st relay_ccid relay_caller_id
          "scott chose voicemail via SMS"
        (vm.1, vm.2 ++
          [Cmd.sms cfg.scott ("📬 Sending " ++ orS name relay_caller_id ++ " to voicemail.")])
      else
        let st := { st with pending := adel st.pending relay_caller_id }
        let st := match aget st.sessions relay_ccid with
          | some s => { st with
              sessions := aset st.sessions relay_ccid { s with scheduling := true } }
          | none => st
        (st,
         [Cmd.speak relay_ccid
            ("Scott would like to schedule a callback with you. " ++
             "What day and time works best for you? I am in the Central time zone.")
            none,
          Cmd.transcriptionStart relay_ccid,
          Cmd.sms cfg.scott
            ("📅 Asking " ++ orS name relay_caller_id ++ " for their preferred callback time.")])

/-- The SMS command dispatch (lines 972-1186), on the upper-cased trimmed
command text.  The sender plays no part here: the source only uses
`from_number` in the guard before this dispatch. -/
def smsDispatch (cfg : Config) (env : Env) (st : State) (text : String) : State × List Cmd :=
  if text == "FORWARD" || text == "F" || text == "VM" || text == "VOICEMAIL" ||
     text == "SCHEDULE" || text == "S" then
    smsRelayCommand cfg env st text
  else if text == "APPTS" then
    (st, [Cmd.sms cfg.scott (list_appointments st.appointments)])
  else if pstarts text "ADD " then
    let number := normalize_number (pstrip (pdrop text 4))
    let cb := add_number_to_whitelist st.contacts number
    let reply := if cb.2 then "✅ " ++ number ++ " added to whitelist."
      else "ℹ️ " ++ number ++ " already on whitelist."
    ({ st with contacts := cb.1 }, [Cmd.sms cfg.scott reply])
  else if pstarts text "REMOVE " then
    let number := normalize_number (pstrip (pdrop text 7))
    if st.contacts.approved_numbers.contains number then
      ({ st with contacts := { st.contacts with
           approved_numbers := st.contacts.approved_numbers.erase number } },
       [Cmd.sms cfg.scott ("🗑️ " ++ number ++ " removed from whitelist.")])
    else
      (st, [Cmd.sms cfg.scott ("ℹ️ " ++ number ++ " was not on the whitelist.")])
  else if text == "STATUS" then
    (st, [Cmd.sms cfg.scott (status_reply cfg env st)])
  else if pstarts text "HISTORY " then
    let number := normalize_number (pstrip (pdrop text 8))
    (st, [Cmd.sms cfg.scott (history_reply st.callers number)])
  else if pstarts text "NOTE " then
    match splitOnceSpace (pstrip (pdrop text 5)) with
    | some nn =>
        let number := normalize_number nn.1
        let note := plower nn.2
        ({ st with callers := add_caller_note st.callers env.now number note },
         [Cmd.sms cfg.scott ("📝 Note added for " ++ number ++ ":\n" ++ note)])
    | none => (st, [Cmd.sms cfg.scott "Usage: NOTE +1XXXXXXXXXX your note here"])
  else if text == "STATS" then
    (st, [Cmd.sms cfg.scott (stats_reply st.callers)])
  else if text == "DND ON" || text == "DND" then
    ({ st with dnd := true },
     [Cmd.sms cfg.scott
       ("🔕 Do Not Disturb is ON.\nAll calls will go straight to voicemail.\n" ++
        "Text DND OFF to turn it off.\nVIP callers still get through.")])
  else if text == "DND OFF" then
    ({ st with dnd := false },
     [Cmd.sms cfg.scott "🔔 Do Not Disturb is OFF. ARIA is screening calls normally."])
  else if pstarts text "VIP ADD " then
    let number := normalize_number (pstrip (pdrop text 8))
    if st.vip.contains number then
      (st, [Cmd.sms cfg.scott ("ℹ️ " ++ number ++ " is already a VIP.")])
    else
      ({ st with vip := st.vip ++ [number] },
       [Cmd.sms cfg.scott
         ("⭐ " ++ number ++ " added to VIP list. They will always get through, " ++
          "even during DND or quiet hours.")])
  else if pstarts text "VIP REMOVE " then
    let number := normalize_number (pstrip (pdrop text 11))
    if st.vip.contains number then
      ({ st with vip := st.vip.erase number },
       [Cmd.sms cfg.scott ("⭐ " ++ number ++ " removed from VIP list.")])
    else
      (st, [Cmd.sms cfg.scott ("ℹ️ " ++ number ++ " was not on the VIP list.")])
  else if text == "VIP" then
    let reply := if st.vip.isEmpty then "⭐ No VIP numbers set.\nUse: VIP ADD +1XXXXXXXXXX"
      else "⭐ VIP List:\n" ++ pjoin "\n" st.vip
    (st, [Cmd.sms cfg.scott reply])
  else if text == "SUMMARY" then
    (st, [Cmd.sms cfg.scott (build_daily_summary env st.dailyLog)])
  else if pstarts text "LOOKUP " then
    let number := normalize_number (pstrip (pdrop text 7))
    let result := env.lookupRes
    let biz := match result.business_name with
      | some b => if b == "" then "" else "\nBusiness: " ++ b
      | none => ""
    (st, [Cmd.sms cfg.scott ("🔍 Looking up " ++ number ++ "..."),
          Cmd.sms cfg.scott
            ("🔍 Lookup: " ++ number ++ "\nSpam score: " ++ toString result.spam_score ++
             "/10" ++ biz ++ "\n" ++ result.summary)])
  else (st, [Cmd.sms cfg.scott sms_help_text])

/-- The `/sms` route (lines 937-1186): when the subscriber number is
configured (truthy), a sender other than it is ignored before any command
runs; an unset subscriber number accepts every sender. -/
def sms_webhook (cfg : Config) (env : Env) (st : State) (from_number rawText : String) :
    State × List Cmd :=
  let text := pupper (pstrip rawText)
  if !truthyS cfg.scott then smsDispatch cfg env st text
  else if from_number == cfg.scott.getD "" then smsDispatch cfg env st text
  else (st, [])

-- ── Helper lemmas ──

@[simp] lemma truthyS_none : truthyS none = false := rfl

@[simp] lemma truthyS_some (s : String) : truthyS (some s) = !(s == "") := rfl

lemma truthyS_isSome {o : Option String} (h : truthyS o = true) : o.isSome := by
  cases o <;> simp_all [truthyS]

@[simp] lemma aget_nil {α : Type} (k : String) : aget ([] : List (String × α)) k = none := rfl

lemma aget_cons {α : Type} (k1 : String) (v1 : α) (t : List (String × α)) (k : String) :
    aget ((k1, v1) :: t) k = if k1 == k then some v1 else aget t k := rfl

@[simp] lemma aget_aset_self {α : Type} (l : List (String × α)) (k : String) (v : α) :
    aget (aset l k v) k = some v := by
  induction l with
  | nil => simp [aset, aget]
  | cons h t ih =>
      obtain ⟨k1, v1⟩ := h
      by_cases hk : k1 == k <;> simp [aset, aget, hk, ih]

@[simp] lemma adel_cons_self {α : Type} (k : String) (v : α) (t : List (String × α)) :
    adel ((k, v) :: t) k = t := by
  simp [adel]

@[simp] lemma akeys_nil {α : Type} : akeys ([] : List (String × α)) = [] := rfl

@[simp] lemma akeys_cons {α : Type} (k : String) (v : α) (t : List (String × α)) :
    akeys ((k, v) :: t) = k :: akeys t := rfl

lemma aset_cons {α : Type} (k1 : String) (v1 : α) (t : List (String × α)) (k : String)
    (v : α) :
    aset ((k1, v1) :: t) k v = if k1 == k then (k1, v) :: t else (k1, v1) :: aset t k v := rfl

lemma adel_cons {α : Type} (k1 : String) (v1 : α) (t : List (String × α)) (k : String) :
    adel ((k1, v1) :: t) k = if k1 == k then t else (k1, v1) :: adel t k := rfl

lemma aget_eq_none_of_not_mem {α : Type} (l : List (String × α)) (k : String)
    (h : k ∉ akeys l) : aget l k = none := by
  induction l with
  | nil => rfl
  | cons hd t ih =>
      obtain ⟨k1, v1⟩ := hd
      rw [akeys_cons, List.mem_cons] at h
      push_neg at h
      have hk : (k1 == k) = false := by
        simp only [beq_eq_false_iff_ne]
        exact fun he => h.1 (he ▸ rfl)
      rw [aget_cons, hk]
      simp only [Bool.false_eq_true, if_false]
      exact ih h.2

lemma mem_akeys_aset {α : Type} (l : List (String × α)) (k : String) (v : α) (x : String) :
    x ∈ akeys (aset l k v) → x ∈ akeys l ∨ x = k := by
  induction l with
  | nil =>
      intro hx
      right
      simpa [aset] using hx
  | cons hd t ih =>
      obtain ⟨k1, v1⟩ := hd
      intro hx
      by_cases hk : (k1 == k) = true
      · rw [aset_cons, if_pos hk, akeys_cons] at hx
        rw [akeys_cons]
        rcases List.mem_cons.mp hx with h | h
        · exact Or.inl (List.mem_cons.mpr (Or.inl h))
        · exact Or.inl (List.mem_cons.mpr (Or.inr h))
      · rw [aset_cons, if_neg hk, akeys_cons] at hx
        rw [akeys_cons]
        rcases List.mem_cons.mp hx with h | h
        · exact Or.inl (List.mem_cons.mpr (Or.inl h))
        · rcases ih h with h2 | h2
          · exact Or.inl (List.mem_cons.mpr (Or.inr h2))
          · exact Or.inr h2

lemma akeys_aset_nodup {α : Type} (l : List (String × α)) (k : String) (v : α)
    (h : (akeys l).Nodup) : (akeys (aset l k v)).Nodup := by
  induction l with
  | nil => simp [aset]
  | cons hd t ih =>
      obtain ⟨k1, v1⟩ := hd
      rw [akeys_cons, List.nodup_cons] at h
      by_cases hk : (k1 == k) = true
      · rw [aset_cons, if_pos hk, akeys_cons, List.nodup_cons]
        exact ⟨h.1, h.2⟩
      · rw [aset_cons, if_neg hk, akeys_cons, List.nodup_cons]
        refine ⟨fun hmem => ?_, ih h.2⟩
        rcases mem_akeys_aset t k v k1 hmem with h2 | h2
        · exact h.1 h2
        · exact absurd h2 (by simpa using hk)

lemma mem_akeys_adel {α : Type} (l : List (String × α)) (k : String) (x : String) :
    x ∈ akeys (adel l k) → x ∈ akeys l := by
  induction l with
  | nil => intro hx; simpa [adel] using hx
  | cons hd t ih =>
      obtain ⟨k1, v1⟩ := hd
      intro hx
      by_cases hk : (k1 == k) = true
      · rw [adel_cons, if_pos hk] at hx
        rw [akeys_cons]
        exact List.mem_cons.mpr (Or.inr hx)
      · rw [adel_cons, if_neg hk, akeys_cons] at hx
        rw [akeys_cons]
        rcases List.mem_cons.mp hx with h | h
        · exact List.mem_cons.mpr (Or.inl h)
        · exact List.mem_cons.mpr (Or.inr (ih h))

lemma akeys_adel_nodup {α : Type} (l : List (String × α)) (k : String)
    (h : (akeys l).Nodup) : (akeys (adel l k)).Nodup := by
  induction l with
  | nil => simp [adel]
  | cons hd t ih =>
      obtain ⟨k1, v1⟩ := hd
      rw [akeys_cons, List.nodup_cons] at h
      by_cases hk : (k1 == k) = true
      · rw [adel_cons, if_pos hk]
        exact h.2
      · rw [adel_cons, if_neg hk, akeys_cons, List.nodup_cons]
        exact ⟨fun hmem => h.1 (mem_akeys_adel t k k1 hmem), ih h.2⟩

lemma aget_adel_self {α : Type} (l : List (String × α)) (k : String)
    (h : (akeys l).Nodup) : aget (adel l k) k = none := by
  induction l with
  | nil => rfl
  | cons hd t ih =>
      obtain ⟨k1, v1⟩ := hd
      rw [akeys_cons, List.nodup_cons] at h
      by_cases hk : (k1 == k) = true
      · have hkk : k1 = k := by simpa using hk
        subst hkk
        rw [adel_cons, if_pos hk]
        exact aget_eq_none_of_not_mem t k1 h.1
      · rw [adel_cons, if_neg hk, aget_cons, if_neg (by simp [hk])]
        exact ih h.2

-- ── Slot monotonicity helper lemmas (for the deciding-cycle slot block) ──

/-- Closed-form characterization of the slot-update block: only the four
slot fields change, each by the stated conditional. -/
lemma applySlotUpdates_eq (s : Session) (r : DecisionResult) (ex : Option String)
    (de : String) :
    applySlotUpdates s r ex de = { s with
      caller_name :=
        (if !truthyS (if truthyS r.name then r.name else s.caller_name) && truthyS ex
         then ex else (if truthyS r.name then r.name else s.caller_name))
      caller_purpose := (if truthyS r.purpose then r.purpose else s.caller_purpose)
      caller_urgency := (if r.urgency.isSome then r.urgency else s.caller_urgency)
      caller_type :=
        (if !truthyS (if truthyS r.caller_type then r.caller_type else s.caller_type) &&
            truthyS (if truthyS r.purpose then r.purpose else s.caller_purpose) then
          (if de != "" && de != "unknown" then some de
           else (if truthyS r.caller_type then r.caller_type else s.caller_type))
         else (if truthyS r.caller_type then r.caller_type else s.caller_type)) } := by
  unfold applySlotUpdates
  cases hn : truthyS r.name <;> cases hp : truthyS r.purpose <;>
    cases hu : r.urgency.isSome <;> cases ht : truthyS r.caller_type <;>
    simp only [hn, hp, hu, ht, Bool.false_eq_true, Bool.true_eq_false, if_true, if_false,
      ite_true, ite_false] <;>
    split_ifs <;> first | rfl | simp_all

lemma applySlot_scheduling (s : Session) (r : DecisionResult) (ex : Option String)
    (de : String) : (applySlotUpdates s r ex de).scheduling = s.scheduling := by
  rw [applySlotUpdates_eq]

lemma applySlot_voicemail (s : Session) (r : DecisionResult) (ex : Option String)
    (de : String) : (applySlotUpdates s r ex de).voicemail = s.voicemail := by
  rw [applySlotUpdates_eq]

lemma applySlot_relay_sent (s : Session) (r : DecisionResult) (ex : Option String)
    (de : String) : (applySlotUpdates s r ex de).relay_sent = s.relay_sent := by
  rw [applySlotUpdates_eq]

lemma applySlot_deciding (s : Session) (r : DecisionResult) (ex : Option String)
    (de : String) : (applySlotUpdates s r ex de).deciding = s.deciding := by
  rw [applySlotUpdates_eq]

lemma applySlot_turns (s : Session) (r : DecisionResult) (ex : Option String)
    (de : String) : (applySlotUpdates s r ex de).turns = s.turns := by
  rw [applySlotUpdates_eq]

lemma applySlot_history (s : Session) (r : DecisionResult) (ex : Option String)
    (de : String) : (applySlotUpdates s r ex de).history = s.history := by
  rw [applySlotUpdates_eq]

lemma applySlot_name_kept (s : Session) (r : DecisionResult) (ex : Option String)
    (de : String) (v : String) (hv : v ≠ "") (hs : s.caller_name = some v)
    (hr : r.name = none) : (applySlotUpdates s r ex de).caller_name = some v := by
  rw [applySlotUpdates_eq]
  simp [hr, hs, hv]

lemma applySlot_purpose_kept (s : Session) (r : DecisionResult) (ex : Option String)
    (de : String) (v : String) (hs : s.caller_purpose = some v)
    (hr : r.purpose = none) : (applySlotUpdates s r ex de).caller_purpose = some v := by
  rw [applySlotUpdates_eq]
  simp [hr, hs]

lemma applySlot_urgency_kept (s : Session) (r : DecisionResult) (ex : Option String)
    (de : String) (v : Int) (hs : s.caller_urgency = some v)
    (hr : r.urgency = none) : (applySlotUpdates s r ex de).caller_urgency = some v := by
  rw [applySlotUpdates_eq]
  simp [hr, hs]

lemma applySlot_type_kept (s : Session) (r : DecisionResult) (ex : Option String)
    (de : String) (v : String) (hv : v ≠ "") (hs : s.caller_type = some v)
    (hr : r.caller_type = none) : (applySlotUpdates s r ex de).caller_type = some v := by
  rw [applySlotUpdates_eq]
  simp [hr, hs, hv]

lemma applySlot_name_isSome (s : Session) (r : DecisionResult) (ex : Option String)
    (de : String) (hs : s.caller_name.isSome = true) :
    (applySlotUpdates s r ex de).caller_name.isSome = true := by
  rw [applySlotUpdates_eq]
  cases hn : truthyS r.name
  · simp only [hn, Bool.false_eq_true, ite_false]
    split_ifs with h1
    · simp only [Bool.and_eq_true] at h1
      exact truthyS_isSome h1.2
    · exact hs
  · simp only [hn, ite_true, Bool.not_true, Bool.false_and, Bool.false_eq_true, ite_false]
    exact truthyS_isSome hn

lemma applySlot_purpose_isSome (s : Session) (r : DecisionResult) (ex : Option String)
    (de : String) (hs : s.caller_purpose.isSome = true) :
    (applySlotUpdates s r ex de).caller_purpose.isSome = true := by
  rw [applySlotUpdates_eq]
  cases hp : truthyS r.purpose
  · simpa only [hp, Bool.false_eq_true, ite_false] using hs
  · simpa only [hp, ite_true] using truthyS_isSome hp

lemma applySlot_urgency_isSome (s : Session) (r : DecisionResult) (ex : Option String)
    (de : String) (hs : s.caller_urgency.isSome = true) :
    (applySlotUpdates s r ex de).caller_urgency.isSome = true := by
  rw [applySlotUpdates_eq]
  cases hu : r.urgency.isSome
  · simpa only [hu, Bool.false_eq_true, ite_false] using hs
  · simpa only [hu, ite_true] using hu

lemma applySlot_type_isSome (s : Session) (r : DecisionResult) (ex : Option String)
    (de : String) (hs : s.caller_type.isSome = true) :
    (applySlotUpdates s r ex de).caller_type.isSome = true := by
  rw [applySlotUpdates_eq]
  cases ht : truthyS r.caller_type
  · simp only [ht, Bool.false_eq_true, ite_false]
    split_ifs <;> first | simp | exact hs
  · simp only [ht, ite_true, Bool.not_true, Bool.false_and, Bool.false_eq_true, ite_false]
    exact truthyS_isSome ht

-- ── Concrete fixtures shared by witnesses and counterexamples ──

/-- A configuration with the subscriber number set, as in deployment. -/
def cfgW : Config := { scott := some "+15550001111" }

/-- A sample caller number. -/
def callerW : String := "+16665551234"

-- ── C9 ──

/-- C9: the urgency tier in the operator relay notification is HIGH exactly
when urgency ≥ 8, MED exactly when 5 ≤ urgency ≤ 7, and LOW exactly when
urgency < 5 (src/app.py line 517). -/
theorem C9_urgency_tiers (u : Int) :
    (urgency_bar u = "🔴 HIGH" ↔ 8 ≤ u) ∧
    (urgency_bar u = "🟡 MED" ↔ 5 ≤ u ∧ u < 8) ∧
    (urgency_bar u = "🟢 LOW" ↔ u < 5) := by
  have hHM : ("🔴 HIGH" : String) ≠ "🟡 MED" := by decide
  have hHL : ("🔴 HIGH" : String) ≠ "🟢 LOW" := by decide
  have hML : ("🟡 MED" : String) ≠ "🟢 LOW" := by decide
  unfold urgency_bar
  by_cases h1 : u ≥ 8
  · rw [if_pos h1]
    exact ⟨⟨fun _ => h1, fun _ => rfl⟩,
           ⟨fun h => absurd h hHM, fun h => absurd h1 (by omega)⟩,
           ⟨fun h => absurd h hHL, fun h => absurd h1 (by omega)⟩⟩
  · by_cases h2 : u ≥ 5
    · rw [if_neg h1, if_pos h2]
      exact ⟨⟨fun h => absurd h.symm hHM, fun h => absurd h1 (by omega)⟩,
             ⟨fun _ => ⟨h2, by omega⟩, fun _ => rfl⟩,
             ⟨fun h => absurd h hML, fun h => absurd h2 (by omega)⟩⟩
    · rw [if_neg h1, if_neg h2]
      exact ⟨⟨fun h => absurd h.symm hHL, fun h => absurd h1 (by omega)⟩,
             ⟨fun h => absurd h.symm hML, fun h => absurd h2 (by omega)⟩,
             ⟨fun _ => by omega, fun _ => rfl⟩⟩

-- ── C3 ──

/-- C3: the deciding-cycle slot block (src/app.py lines 1457-1473) is
monotonically non-erasing: a slot already set in the session (set in the
code's sense, i.e. truthy — the source guards every slot read and write
with Python truthiness, under which `""` counts as unset; urgency is
guarded by `is not None`, so any integer counts as set) keeps its exact
value when the adapter result carries null for that slot, and a set slot
is never cleared back to null by any update. -/
theorem C3_slots_monotonic (s : Session) (r : DecisionResult) (ex : Option String)
    (de : String) :
    ((∀ v : String, v ≠ "" → s.caller_name = some v → r.name = none →
        (applySlotUpdates s r ex de).caller_name = some v) ∧
     (∀ v : String, s.caller_purpose = some v → r.purpose = none →
        (applySlotUpdates s r ex de).caller_purpose = some v) ∧
     (∀ v : Int, s.caller_urgency = some v → r.urgency = none →
        (applySlotUpdates s r ex de).caller_urgency = some v) ∧
     (∀ v : String, v ≠ "" → s.caller_type = some v → r.caller_type = none →
        (applySlotUpdates s r ex de).caller_type = some v)) ∧
    ((s.caller_name.isSome = true → (applySlotUpdates s r ex de).caller_name.isSome = true) ∧
     (s.caller_purpose.isSome = true →
        (applySlotUpdates s r ex de).caller_purpose.isSome = true) ∧
     (s.caller_urgency.isSome = true →
        (applySlotUpdates s r ex de).caller_urgency.isSome = true) ∧
     (s.caller_type.isSome = true → (applySlotUpdates s r ex de).caller_type.isSome = true)) :=
  ⟨⟨fun v hv hs hr => applySlot_name_kept s r ex de v hv hs hr,
    fun v hs hr => applySlot_purpose_kept s r ex de v hs hr,
    fun v hs hr => applySlot_urgency_kept s r ex de v hs hr,
    fun v hv hs hr => applySlot_type_kept s r ex de v hv hs hr⟩,
   ⟨fun h => applySlot_name_isSome s r ex de h,
    fun h => applySlot_purpose_isSome s r ex de h,
    fun h => applySlot_urgency_isSome s r ex de h,
    fun h => applySlot_type_isSome s r ex de h⟩⟩

/-- Witness for C3 at a concrete session and a null-slot adapter result. -/
theorem C3_witness :
    (applySlotUpdates
      { caller_name := some "Bob", caller_purpose := some "deal", caller_urgency := some 6
        caller_type := some "business" }
      {} none "unknown").caller_name = some "Bob" ∧
    (applySlotUpdates
      { caller_name := some "Bob", caller_purpose := some "deal", caller_urgency := some 6
        caller_type := some "business" }
      {} none "unknown").caller_urgency = some 6 := by
  have h := C3_slots_monotonic
    { caller_name := some "Bob", caller_purpose := some "deal", caller_urgency := some 6
      caller_type := some "business" }
    {} none "unknown"
  exact ⟨h.1.1 "Bob" (by decide) rfl rfl, h.1.2.2.1 6 rfl rfl⟩

-- ── C4 ──

/-- C4: a final transcript arriving while the session's deciding flag is
set (the state a session is in for the whole of a Deciding cycle, during
which the three sub-flow flags are false) is discarded with no effect: the
state is returned unchanged — no history append, no session mutation —
and no control-plane command or SMS is issued; the equality holds for
every adapter environment, so no Decision Adapter call can be observed
(src/app.py lines 1427-1429). -/
theorem C4_deciding_guard (cfg : Config) (env : Env) (st : State)
    (ccid caller_id t : String) (s : Session)
    (hs : aget st.sessions ccid = some s) (ht : (pstrip t == "") = false)
    (hd : s.deciding = true) (h1 : s.scheduling = false) (h2 : s.voicemail = false)
    (h3 : s.relay_sent = false) :
    handleTranscription cfg env st ccid caller_id t true = (st, []) := by
  unfold handleTranscription transcriptionCore
  simp [ht, hs, h1, h2, h3, hd]

/-- A session mid-Deciding, used by the C4 witness. -/
def sessionDecidingW : Session := { caller_id := some callerW, deciding := true }

/-- A state holding only the mid-Deciding session, used by the C4 witness. -/
def stateDecidingW : State := { sessions := [("c1", sessionDecidingW)] }

/-- Witness for C4 at a concrete deciding session. -/
theorem C4_witness :
    handleTranscription cfgW {} stateDecidingW "c1" callerW "hello there" true
      = (stateDecidingW, []) :=
  C4_deciding_guard cfgW {} stateDecidingW "c1" callerW "hello there" sessionDecidingW
    rfl (by decide) rfl rfl rfl rfl

-- ── C10 ──

/-- C10: the SMS sender gate (src/app.py lines 962-970).  When the
subscriber number is configured (truthy), an SMS whose sender differs from
it executes no command and leaves the whole shared state — pending relays,
call sessions, whitelist, VIP list, DND flag, appointments, caller records
— unchanged, issuing nothing.  When it is not configured, the command
dispatch runs for every sender (the sender is not consulted at all). -/
theorem C10_sms_sender_gate :
    (∀ (cfg : Config) (env : Env) (st : State) (sender text : String),
       truthyS cfg.scott = true → (sender == cfg.scott.getD "") = false →
       sms_webhook cfg env st sender text = (st, [])) ∧
    (∀ (cfg : Config) (env : Env) (st : State) (sender text : String),
       truthyS cfg.scott = false →
       sms_webhook cfg env st sender text = smsDispatch cfg env st (pupper (pstrip text))) := by
  constructor
  · intro cfg env st sender text hcfg hsender
    unfold sms_webhook
    simp [hcfg, hsender]
  · intro cfg env st sender text hcfg
    unfold sms_webhook
    simp [hcfg]

/-- Witness for C10: a stranger's STATUS command is dropped when the
subscriber number is configured, and dispatched when it is not. -/
theorem C10_witness :
    sms_webhook cfgW {} State.empty "+19998887777" "STATUS" = (State.empty, []) ∧
    sms_webhook { scott := none } {} State.empty "+19998887777" "STATUS"
      = smsDispatch { scott := none } {} State.empty (pupper (pstrip "STATUS")) :=
  ⟨C10_sms_sender_gate.1 cfgW {} State.empty "+19998887777" "STATUS" (by decide) (by decide),
   C10_sms_sender_gate.2 { scott := none } {} State.empty "+19998887777" "STATUS" rfl⟩

-- ── C5 ──

/-- C5: each operator relay command (FORWARD/F, VM/VOICEMAIL, SCHEDULE/S)
resolves exactly one PendingRelay entry — the single oldest one, the head
of the insertion-ordered map — and removes exactly that entry (the new
pending map is the tail); relay creation (`send_relay_sms`, a Python dict
write) and entry removal preserve at-most-one-entry-per-caller. -/
theorem C5_pending_relay (cfg : Config) (env : Env) :
    (∀ (st : State) (a c : String) (rest : List (String × String)) (text : String),
       st.pending = (a, c) :: rest →
       (text = "FORWARD" ∨ text = "F" ∨ text = "VM" ∨ text = "VOICEMAIL" ∨
        text = "SCHEDULE" ∨ text = "S") →
       (smsDispatch cfg env st text).1.pending = rest) ∧
    (∀ (st : State) (ccid caller_id : String) (name purpose : Option String)
       (urgency : Int) (caller_type : Option String),
       (akeys st.pending).Nodup →
       (akeys (send_relay_sms cfg st ccid caller_id name purpose urgency
          caller_type).1.pending).Nodup) ∧
    (∀ (l : List (String × String)) (k : String),
       (akeys l).Nodup → (akeys (adel l k)).Nodup) := by
  refine ⟨?_, ?_, ?_⟩
  · intro st a c rest text hp htext
    rcases htext with rfl | rfl | rfl | rfl | rfl | rfl <;>
      (unfold smsDispatch smsRelayCommand
       rw [hp]
       cases h2 : aget st.sessions c <;> simp [start_voicemail, h2])
  · intro st ccid caller_id name purpose urgency caller_type hnd
    unfold send_relay_sms
    simpa using akeys_aset_nodup st.pending caller_id ccid hnd
  · intro l k hnd
    exact akeys_adel_nodup l k hnd

/-- Witness for C5: a VM command on a one-entry pending map empties it, and
creating a relay from an empty map keeps the keys duplicate-free. -/
theorem C5_witness :
    (smsDispatch cfgW {} { pending := [(callerW, "c1")] } "VM").1.pending = [] ∧
    (akeys (send_relay_sms cfgW State.empty "c1" callerW none none 5
       none).1.pending).Nodup :=
  ⟨(C5_pending_relay cfgW {}).1 { pending := [(callerW, "c1")] } callerW "c1" [] "VM"
      rfl (Or.inr (Or.inr (Or.inl rfl))),
   (C5_pending_relay cfgW {}).2.1 State.empty "c1" callerW none none 5 none (by decide)⟩

-- ── C8 ──

/-- C8 (amended): on a final transcript while the session is in the
scheduling sub-flow (src/app.py lines 1363-1377), the system stops
transcription, books an Appointment whose time value is the raw
(whitespace-stripped) caller utterance verbatim — no parsing or
validation — with the name defaulting to "the caller" when not yet known
(the "Unknown" default belongs to the deciding-dispatch schedule action,
line 1534, not to this sub-flow) and the purpose defaulting to "callback",
notifies the subscriber by SMS, speaks a confirmation echoing the stated
time, hangs up, and destroys the session. -/
theorem C8_scheduling_booking (cfg : Config) (env : Env) (st : State)
    (ccid caller_id t : String) (s : Session)
    (hs : aget st.sessions ccid = some s) (ht : (pstrip t == "") = false)
    (hsch : s.scheduling = true) :
    (handleTranscription cfg env st ccid caller_id t true).1.appointments =
      st.appointments ++
        [{ name := orS s.caller_name "the caller", number := caller_id
           time_str := pstrip t, purpose := orS s.caller_purpose "callback"
           booked_at := env.now }] ∧
    ((akeys st.sessions).Nodup →
      aget (handleTranscription cfg env st ccid caller_id t true).1.sessions ccid = none) ∧
    (handleTranscription cfg env st ccid caller_id t true).2 =
      [Cmd.transcriptionStop ccid,
       Cmd.sms cfg.scott
         ("📅 ARIA — Callback Scheduled\nName: " ++ orS s.caller_name "the caller" ++ " (" ++
          caller_id ++ ")\nTime: " ++ pstrip t ++ "\nRe: " ++
          orS s.caller_purpose "callback" ++
          "\n\nReply APPTS to see all scheduled callbacks."),
       Cmd.speak ccid
         ("Perfect! I have you scheduled. Scott will call you back at " ++ pstrip t ++
          ". Thank you for calling and have a wonderful day. Goodbye.")
         (some "screened"),
       Cmd.hangup ccid] := by
  unfold handleTranscription transcriptionCore schedulingBranch book_appointment
  refine ⟨?_, fun hnd => ?_, ?_⟩
  · simp [ht, hs, hsch]
  · simp only [ht, hs, hsch]
    simp [ht, hs, hsch, aget_adel_self, akeys_aset_nodup, hnd]
  · simp [ht, hs, hsch]

/-- A session sitting in the scheduling sub-flow with no gathered name,
used by the C8 theorems. -/
def sessionSchedW : Session := { caller_id := some callerW, scheduling := true }

/-- The state holding only that scheduling session. -/
def stateSchedW : State := { sessions := [("c3", sessionSchedW)] }

/-- C8 counterexample: with no name gathered, the scheduling sub-flow books
the appointment under "the caller", not "Unknown" as the claim states. -/
theorem C8_cex :
    ((handleTranscription cfgW {} stateSchedW "c3" callerW "Thursday at 2pm"
        true).1.appointments.map Appt.name) = ["the caller"] ∧
    ("the caller" : String) ≠ "Unknown" := by
  constructor
  · decide
  · decide

/-- Witness for C8 at a concrete scheduling session. -/
theorem C8_witness :
    (handleTranscription cfgW {} stateSchedW "c3" callerW "Thursday at 2pm"
        true).1.appointments =
      [{ name := "the caller", number := callerW, time_str := "Thursday at 2pm"
         purpose := "callback", booked_at := "" }] ∧
    aget (handleTranscription cfgW {} stateSchedW "c3" callerW "Thursday at 2pm"
        true).1.sessions "c3" = none := by
  have h := C8_scheduling_booking cfgW {} stateSchedW "c3" callerW "Thursday at 2pm"
    sessionSchedW rfl (by decide) rfl
  exact ⟨h.1, h.2.1 (by decide)⟩

-- ── C7 ──

/-- C7 (amended): a Deciding cycle in which the Decision Adapter call fails
(src/app.py lines 918-925, `env.decision = none`) is caught and mapped to
the fail-closed fallback: the generic clarifying message is spoken,
listening resumes, and no hangup or transfer is issued — exactly the three
commands stop/speak/listen are emitted; the session stays in the store with
its sub-flow flags still false, previously set slots keep their values and
none is cleared.  The session is NOT unchanged, however: as in every
cycle, the caller utterance and the fallback reply are appended to history
and the turn counter increments (see the counterexample). -/
theorem C7_adapter_failure (cfg : Config) (env : Env) (st : State)
    (ccid caller_id t : String) (s : Session)
    (hs : aget st.sessions ccid = some s) (ht : (pstrip t == "") = false)
    (h1 : s.scheduling = false) (h2 : s.voicemail = false) (h3 : s.relay_sent = false)
    (h4 : s.deciding = false)
    (hecho : looks_like_greeting_echo (pstrip t) = false)
    (hwl : name_in_whitelist st.contacts (pstrip t) = false)
    (hfail : env.decision = none) :
    (handleTranscription cfg env st ccid caller_id t true).2 =
      [Cmd.transcriptionStop ccid,
       Cmd.speak ccid "I\x27m sorry, could you say that again? Who am I speaking with?" none,
       Cmd.transcriptionStart ccid] ∧
    (∃ s2 : Session,
       aget (handleTranscription cfg env st ccid caller_id t true).1.sessions ccid = some s2 ∧
       s2.scheduling = false ∧ s2.voicemail = false ∧ s2.relay_sent = false ∧
       s2.deciding = false ∧ s2.turns = s.turns + 1 ∧
       s2.history = s.history ++ [("user", pstrip t),
         ("assistant", "I\x27m sorry, could you say that again? Who am I speaking with?")] ∧
       (∀ v : String, v ≠ "" → s.caller_name = some v → s2.caller_name = some v) ∧
       (∀ v : String, s.caller_purpose = some v → s2.caller_purpose = some v) ∧
       (∀ v : Int, s.caller_urgency = some v → s2.caller_urgency = some v) ∧
       (∀ v : String, v ≠ "" → s.caller_type = some v → s2.caller_type = some v)) := by
  unfold handleTranscription transcriptionCore decidingCycle ai_conversation_turn
  simp [ht, hs, h1, h2, h3, h4, hecho, hwl, hfail, fallback_decision]
  refine ⟨(applySlot_scheduling _ _ _ _).trans rfl, (applySlot_voicemail _ _ _ _).trans rfl,
    (applySlot_relay_sent _ _ _ _).trans rfl, (applySlot_deciding _ _ _ _).trans rfl,
    applySlot_turns _ _ _ _, ?_, ?_, ?_, ?_, ?_⟩
  · rw [applySlot_history]
    simp
  · exact fun v hv hsv => applySlot_name_kept _ _ _ _ v hv (by simpa using hsv) rfl
  · exact fun v hsv => applySlot_purpose_kept _ _ _ _ v (by simpa using hsv) rfl
  · exact fun v hsv => applySlot_urgency_kept _ _ _ _ v (by simpa using hsv) rfl
  · exact fun v hv hsv => applySlot_type_kept _ _ _ _ v hv (by simpa using hsv) rfl

/-- A freshly greeted listening session with no gathered slots, used by
the C7 theorems. -/
def sessionListenW : Session := { caller_id := some callerW }

/-- The state holding only that listening session. -/
def stateListenW : State := { sessions := [("c4", sessionListenW)] }

/-- C7 counterexample: on adapter failure the session state is NOT
unchanged — the turn counter increments (0 to 1) and history grows, so the
resulting state differs from the original. -/
theorem C7_cex :
    (handleTranscription cfgW {} stateListenW "c4" callerW "hi this is dave" true).1
      ≠ stateListenW ∧
    (aget (handleTranscription cfgW {} stateListenW "c4" callerW "hi this is dave"
        true).1.sessions "c4").map Session.turns = some 1 := by
  have hA : (aget (handleTranscription cfgW {} stateListenW "c4" callerW "hi this is dave"
      true).1.sessions "c4").map Session.turns = some 1 := by decide
  have hB : (aget stateListenW.sessions "c4").map Session.turns = some 0 := by decide
  refine ⟨fun h => ?_, hA⟩
  rw [h] at hA
  exact absurd (hA.symm.trans hB) (by decide)

/-- Witness for C7 at a concrete listening session and failing adapter. -/
theorem C7_witness :
    (handleTranscription cfgW {} stateListenW "c4" callerW "hi this is dave" true).2 =
      [Cmd.transcriptionStop "c4",
       Cmd.speak "c4" "I\x27m sorry, could you say that again? Who am I speaking with?" none,
       Cmd.transcriptionStart "c4"] :=
  (C7_adapter_failure cfgW {} stateListenW "c4" callerW "hi this is dave" sessionListenW
    rfl (by decide) rfl rfl rfl rfl (by decide) (by decide) rfl).1

-- ── C6 ──

/-- C6: the voicemail adaptive follow-up loop is capped at 2 iterations
(src/app.py lines 642-689, 1379-1408).  First, once a session's follow-up
turn counter has reached 2, `ai_voicemail_followup` returns done without
consulting the adapter, for every environment and transcript.  Second, the
next finalized transcript for such a session finalizes the voicemail —
the session is destroyed and the call hung up — and the outcome is
identical for every adapter follow-up reply, i.e. the Decision Adapter's
own done flag is irrelevant and the adapter is not consulted.  Third, a
follow-up question is only ever spoken from a state with the counter
below 2, and speaking it increments the counter — so at most two
follow-up questions can ever be asked in one voicemail session. -/
theorem C6_vm_followup_cap (cfg : Config) :
    (∀ (env : Env) (transcript : String) (s : Session), 2 ≤ s.vm_turns →
       ai_voicemail_followup env transcript s = { done := true, question := none }) ∧
    (∀ (env : Env) (st : State) (ccid caller_id t : String) (s : Session),
       aget st.sessions ccid = some s → (pstrip t == "") = false →
       s.scheduling = false → s.voicemail = true → 2 ≤ s.vm_turns →
       (((akeys st.sessions).Nodup →
          aget (handleTranscription cfg env st ccid caller_id t true).1.sessions ccid
            = none) ∧
        Cmd.hangup ccid ∈ (handleTranscription cfg env st ccid caller_id t true).2 ∧
        (∀ f1 f2 : Option FollowupResult,
          handleTranscription cfg { env with followup := f1 } st ccid caller_id t true =
          handleTranscription cfg { env with followup := f2 } st ccid caller_id t true))) ∧
    (∀ (env : Env) (st : State) (ccid caller_id t q : String) (s : Session),
       aget st.sessions ccid = some s → (pstrip t == "") = false →
       s.scheduling = false → s.voicemail = true → s.vm_turns < 2 →
       env.followup = some { done := false, question := some q } → (q == "") = false →
       (∃ s2 : Session,
          aget (handleTranscription cfg env st ccid caller_id t true).1.sessions ccid
            = some s2 ∧
          s2.vm_turns = s.vm_turns + 1) ∧
       Cmd.speak ccid q none ∈ (handleTranscription cfg env st ccid caller_id t true).2) := by
  refine ⟨?_, ?_, ?_⟩
  · intro env transcript s hvt
    unfold ai_voicemail_followup
    rw [if_pos hvt]
  · intro env st ccid caller_id t s hs ht hsch hvm hvt
    have h0 : (s.vm_turns == 0) = false := by
      simp only [beq_eq_false_iff_ne, ne_eq]
      omega
    refine ⟨fun hnd => ?_, ?_, fun f1 f2 => ?_⟩ <;>
      (unfold handleTranscription transcriptionCore vmBranch ai_voicemail_followup
        finalize_voicemail
       simp [hs, ht, hsch, hvm, hvt, h0, aget_adel_self, akeys_aset_nodup, truthyS])
    exact aget_adel_self _ _ (akeys_aset_nodup _ _ _ hnd)
  · intro env st ccid caller_id t q s hs ht hsch hvm hvt hf hq
    have hnot : ¬ (2 ≤ s.vm_turns) := by omega
    unfold handleTranscription transcriptionCore vmBranch ai_voicemail_followup
    simp [hs, ht, hsch, hvm, hf, hnot, hq, truthyS, apply_ite Session.vm_turns]

/-- A voicemail session whose follow-up counter has reached the cap of 2,
used by the C6 witness. -/
def sessionVmCapW : Session :=
  { caller_id := some callerW, voicemail := true, vm_turns := 2
    vm_transcript_parts := ["part one", "part two"], voicemail_caller := some callerW }

/-- The state holding only that capped voicemail session. -/
def stateVmCapW : State := { sessions := [("c6", sessionVmCapW)] }

/-- An adapter environment whose follow-up reply says NOT done — the cap
must finalize anyway. -/
def envNotDoneW : Env := { followup := some { done := false, question := some "what else?" } }

/-- Witness for C6: with the counter at 2 and the adapter claiming not
done, the next transcript still finalizes — session destroyed, hangup
issued. -/
theorem C6_witness :
    aget (handleTranscription cfgW envNotDoneW stateVmCapW "c6" callerW "more info"
        true).1.sessions "c6" = none ∧
    Cmd.hangup "c6" ∈ (handleTranscription cfgW envNotDoneW stateVmCapW "c6" callerW
        "more info" true).2 := by
  have h := (C6_vm_followup_cap cfgW).2.1 envNotDoneW stateVmCapW "c6" callerW "more info"
    sessionVmCapW rfl (by decide) rfl rfl (by decide)
  exact ⟨h.1 (by decide), h.2.1⟩

-- ── C2 ──

/-- C2 (amended): sub-flow entries from the call webhook keep the three
sub-flow flags disjoint — a deciding-dispatch `voicemail` (resp. `relay`)
action yields a session with only the voicemail (resp. relay_sent) flag
set, and the relay-hold opt-out clears relay_sent before entering
voicemail — but the operator SMS resolutions do not: the SCHEDULE command
sets scheduling and the VM command sets voicemail while leaving
relay_sent untouched (src/app.py lines 998-1012 never clear it), so after
an operator resolution two sub-flow flags are true simultaneously (see
the counterexample).  The transcript dispatcher resolves the overlap by
checking scheduling, then voicemail, then relay hold, in that order. -/
theorem C2_subflow_flags (cfg : Config) :
    (∀ (env : Env) (st : State) (ccid caller_id t : String) (s : Session)
       (d : DecisionResult),
       aget st.sessions ccid = some s → (pstrip t == "") = false →
       s.scheduling = false → s.voicemail = false → s.relay_sent = false →
       s.deciding = false →
       looks_like_greeting_echo (pstrip t) = false →
       name_in_whitelist st.contacts (pstrip t) = false →
       env.decision = some d → d.action = some "voicemail" →
       ∃ s2 : Session,
         aget (handleTranscription cfg env st ccid caller_id t true).1.sessions ccid
           = some s2 ∧
         s2.voicemail = true ∧ s2.scheduling = false ∧ s2.relay_sent = false) ∧
    (∀ (env : Env) (st : State) (ccid caller_id t : String) (s : Session)
       (d : DecisionResult),
       aget st.sessions ccid = some s → (pstrip t == "") = false →
       s.scheduling = false → s.voicemail = false → s.relay_sent = false →
       s.deciding = false →
       looks_like_greeting_echo (pstrip t) = false →
       name_in_whitelist st.contacts (pstrip t) = false →
       env.decision = some d → d.action = some "relay" →
       ∃ s2 : Session,
         aget (handleTranscription cfg env st ccid caller_id t true).1.sessions ccid
           = some s2 ∧
         s2.relay_sent = true ∧ s2.voicemail = false ∧ s2.scheduling = false) ∧
    (∀ (env : Env) (st : State) (ccid caller_id t : String) (s : Session),
       aget st.sessions ccid = some s → (pstrip t == "") = false →
       s.scheduling = false → s.voicemail = false → s.relay_sent = true →
       hold_keywords.any (fun w => strContains (plower (pstrip t)) w) = true →
       ∃ s2 : Session,
         aget (handleTranscription cfg env st ccid caller_id t true).1.sessions ccid
           = some s2 ∧
         s2.voicemail = true ∧ s2.relay_sent = false ∧ s2.scheduling = false) ∧
    (∀ (env : Env) (st : State) (a c : String) (rest : List (String × String))
       (s : Session),
       st.pending = (a, c) :: rest → aget st.sessions c = some s →
       ∃ s2 : Session,
         aget (smsDispatch cfg env st "SCHEDULE").1.sessions c = some s2 ∧
         s2.scheduling = true ∧ s2.relay_sent = s.relay_sent ∧
         s2.voicemail = s.voicemail) ∧
    (∀ (env : Env) (st : State) (a c : String) (rest : List (String × String))
       (s : Session),
       st.pending = (a, c) :: rest → aget st.sessions c = some s →
       ∃ s2 : Session,
         aget (smsDispatch cfg env st "VM").1.sessions c = some s2 ∧
         s2.voicemail = true ∧ s2.relay_sent = s.relay_sent ∧
         s2.scheduling = s.scheduling) := by
  refine ⟨?_, ?_, ?_, ?_, ?_⟩
  · intro env st ccid caller_id t s d hs ht h1 h2 h3 h4 hecho hwl hdec hact
    unfold handleTranscription transcriptionCore decidingCycle ai_conversation_turn
    simp [hs, ht, h1, h2, h3, h4, hecho, hwl, hdec, hact]
    exact ⟨(applySlot_scheduling _ _ _ _).trans rfl, (applySlot_relay_sent _ _ _ _).trans rfl⟩
  · intro env st ccid caller_id t s d hs ht h1 h2 h3 h4 hecho hwl hdec hact
    unfold handleTranscription transcriptionCore decidingCycle ai_conversation_turn
    simp [hs, ht, h1, h2, h3, h4, hecho, hwl, hdec, hact, applySlot_relay_sent]
    exact ⟨(applySlot_voicemail _ _ _ _).trans rfl, (applySlot_scheduling _ _ _ _).trans rfl⟩
  · intro env st ccid caller_id t s hs ht h1 h2 h3 hkw
    unfold handleTranscription transcriptionCore holdBranch start_voicemail
    simp [hs, ht, h1, h2, h3, hkw]
  · intro env st a c rest s hp hs
    unfold smsDispatch smsRelayCommand
    rw [hp]
    simp [hs]
  · intro env st a c rest s hp hs
    unfold smsDispatch smsRelayCommand start_voicemail
    rw [hp]
    simp [hs]

/-- The adapter decision that escalates to the relay sub-protocol, used by
the C2 counterexample chain. -/
def envRelayW : Env :=
  { decision := some
      { action := some "relay", message := some "Let me check if Scott is available."
        name := some "Bob", purpose := some "business deal", urgency := some 6
        caller_type := some "business" } }

/-- The state reached from the empty store by call.initiated, call.answered
and a final transcript whose decision is `relay`: the session is on relay
hold and one pending relay entry exists. -/
def stateAfterRelayW : State :=
  (webhook cfgW envRelayW
    { event_type := "call.transcription", ccid := "c1", caller_id := callerW
      transcript := "hello im bob about the deal", is_final := true }
    (webhook cfgW {}
      { event_type := "call.answered", ccid := "c1", caller_id := callerW
        direction := "incoming" }
      (webhook cfgW {}
        { event_type := "call.initiated", ccid := "c1", caller_id := callerW
          direction := "incoming" }
        State.empty).1).1).1

/-- C2 counterexample: from the reachable relay-hold state, the operator
SCHEDULE command leaves relay_sent true while setting scheduling — two
sub-flow flags are true at once, refuting the disjointness claim. -/
theorem C2_cex :
    (aget (sms_webhook cfgW {} stateAfterRelayW "+15550001111" "SCHEDULE").1.sessions
        "c1").map (fun s => (s.relay_sent, s.scheduling)) = some (true, true) := by
  decide

/-- Witness for C2: the deciding-dispatch voicemail entry at a concrete
session yields voicemail set and the other two flags clear. -/
theorem C2_witness :
    ∃ s2 : Session,
      aget (handleTranscription cfgW
          { decision := some { action := some "voicemail", message := some "Can I take a message?" } }
          stateListenW "c4" callerW "hi this is dave" true).1.sessions "c4" = some s2 ∧
      s2.voicemail = true ∧ s2.scheduling = false ∧ s2.relay_sent = false :=
  (C2_subflow_flags cfgW).1
    { decision := some { action := some "voicemail", message := some "Can I take a message?" } }
    stateListenW "c4" callerW "hi this is dave" sessionListenW
    { action := some "voicemail", message := some "Can I take a message?" }
    rfl (by decide) rfl rfl rfl rfl (by decide) (by decide) rfl rfl

-- ── C1 ──

/-- C1 (amended): the session store is keyed by ccid (an association map
with unique keys), and the session is removed on the terminal actions of
the transcript-driven flows — the deciding dispatch's forward transfer,
schedule booking and block, the whitelist fast-path transfer, the
scheduling sub-flow booking, voicemail finalization — on the operator
FORWARD command, and on every hangup event.  However, the claim's
"removed on every terminal action" fails for the two terminal actions
taken directly at call-answered: the whitelist/VIP transfer (src/app.py
lines 1240-1247) and the auto-spam block (lines 1249-1258) leave the
session in the store until the later hangup event (see the
counterexample). -/
theorem C1_session_removal (cfg : Config) :
    (∀ (env : Env) (st : State) (ccid caller_id t : String) (s : Session)
       (d : DecisionResult),
       aget st.sessions ccid = some s → (pstrip t == "") = false →
       s.scheduling = false → s.voicemail = false → s.relay_sent = false →
       s.deciding = false → looks_like_greeting_echo (pstrip t) = false →
       name_in_whitelist st.contacts (pstrip t) = false →
       env.decision = some d → d.action = some "forward" → (akeys st.sessions).Nodup →
       aget (handleTranscription cfg env st ccid caller_id t true).1.sessions ccid = none ∧
       Cmd.transfer ccid cfg.scott ∈ (handleTranscription cfg env st ccid caller_id
         t true).2) ∧
    (∀ (env : Env) (st : State) (ccid caller_id t : String) (s : Session)
       (d : DecisionResult),
       aget st.sessions ccid = some s → (pstrip t == "") = false →
       s.scheduling = false → s.voicemail = false → s.relay_sent = false →
       s.deciding = false → looks_like_greeting_echo (pstrip t) = false →
       name_in_whitelist st.contacts (pstrip t) = false →
       env.decision = some d → d.action = some "schedule" → (akeys st.sessions).Nodup →
       aget (handleTranscription cfg env st ccid caller_id t true).1.sessions ccid = none ∧
       Cmd.hangup ccid ∈ (handleTranscription cfg env st ccid caller_id t true).2) ∧
    (∀ (env : Env) (st : State) (ccid caller_id t : String) (s : Session)
       (d : DecisionResult),
       aget st.sessions ccid = some s → (pstrip t == "") = false →
       s.scheduling = false → s.voicemail = false → s.relay_sent = false →
       s.deciding = false → looks_like_greeting_echo (pstrip t) = false →
       name_in_whitelist st.contacts (pstrip t) = false →
       env.decision = some d → d.action = some "block" → (akeys st.sessions).Nodup →
       aget (handleTranscription cfg env st ccid caller_id t true).1.sessions ccid = none ∧
       Cmd.hangup ccid ∈ (handleTranscription cfg env st ccid caller_id t true).2) ∧
    (∀ (env : Env) (st : State) (ccid caller_id t : String) (s : Session),
       aget st.sessions ccid = some s → (pstrip t == "") = false →
       s.scheduling = false → s.voicemail = false → s.relay_sent = false →
       s.deciding = false → looks_like_greeting_echo (pstrip t) = false →
       name_in_whitelist st.contacts (pstrip t) = true → (akeys st.sessions).Nodup →
       aget (handleTranscription cfg env st ccid caller_id t true).1.sessions ccid = none ∧
       Cmd.transfer ccid cfg.scott ∈ (handleTranscription cfg env st ccid caller_id
         t true).2) ∧
    (∀ (env : Env) (st : State) (ccid caller_id t : String) (s : Session),
       aget st.sessions ccid = some s → (pstrip t == "") = false →
       s.scheduling = true → (akeys st.sessions).Nodup →
       aget (handleTranscription cfg env st ccid caller_id t true).1.sessions ccid = none ∧
       Cmd.hangup ccid ∈ (handleTranscription cfg env st ccid caller_id t true).2) ∧
    (∀ (env : Env) (st : State) (ccid caller_id t : String) (s : Session),
       aget st.sessions ccid = some s → (pstrip t == "") = false →
       s.scheduling = false → s.voicemail = true →
       env.followup = some { done := true, question := none } →
       (akeys st.sessions).Nodup →
       aget (handleTranscription cfg env st ccid caller_id t true).1.sessions ccid = none ∧
       Cmd.hangup ccid ∈ (handleTranscription cfg env st ccid caller_id t true).2) ∧
    (∀ (env : Env) (st : State) (a c : String) (rest : List (String × String)),
       st.pending = (a, c) :: rest → (akeys st.sessions).Nodup →
       aget (smsDispatch cfg env st "FORWARD").1.sessions c = none ∧
       Cmd.transfer c cfg.scott ∈ (smsDispatch cfg env st "FORWARD").2) ∧
    (∀ (st : State) (ccid caller_id : String), (akeys st.sessions).Nodup →
       aget (handleHangup st ccid caller_id).1.sessions ccid = none) := by
  refine ⟨?_, ?_, ?_, ?_, ?_, ?_, ?_, ?_⟩
  · intro env st ccid caller_id t s d hs ht h1 h2 h3 h4 hecho hwl hdec hact hnd
    unfold handleTranscription transcriptionCore decidingCycle ai_conversation_turn
    simp [hs, ht, h1, h2, h3, h4, hecho, hwl, hdec, hact]
    exact aget_adel_self _ _ (akeys_aset_nodup _ _ _ (akeys_aset_nodup _ _ _ hnd))
  · intro env st ccid caller_id t s d hs ht h1 h2 h3 h4 hecho hwl hdec hact hnd
    unfold handleTranscription transcriptionCore decidingCycle ai_conversation_turn
      book_appointment
    simp [hs, ht, h1, h2, h3, h4, hecho, hwl, hdec, hact]
    exact aget_adel_self _ _ (akeys_aset_nodup _ _ _ (akeys_aset_nodup _ _ _ hnd))
  · intro env st ccid caller_id t s d hs ht h1 h2 h3 h4 hecho hwl hdec hact hnd
    unfold handleTranscription transcriptionCore decidingCycle ai_conversation_turn
    simp [hs, ht, h1, h2, h3, h4, hecho, hwl, hdec, hact]
    exact aget_adel_self _ _ (akeys_aset_nodup _ _ _ (akeys_aset_nodup _ _ _ hnd))
  · intro env st ccid caller_id t s hs ht h1 h2 h3 h4 hecho hwl hnd
    unfold handleTranscription transcriptionCore decidingCycle
    simp [hs, ht, h1, h2, h3, h4, hecho, hwl, aget_adel_self, akeys_aset_nodup, hnd]
  · intro env st ccid caller_id t s hs ht hsch hnd
    unfold handleTranscription transcriptionCore schedulingBranch book_appointment
    simp [hs, ht, hsch, aget_adel_self, akeys_aset_nodup, hnd]
  · intro env st ccid caller_id t s hs ht hsch hvm hf hnd
    unfold handleTranscription transcriptionCore vmBranch ai_voicemail_followup
      finalize_voicemail
    simp [hs, ht, hsch, hvm, hf, aget_adel_self, akeys_aset_nodup, hnd]
  · intro env st a c rest hp hnd
    unfold smsDispatch smsRelayCommand
    rw [hp]
    simp [aget_adel_self, hnd, ← hp]
  · intro st ccid caller_id hnd
    unfold handleHangup
    simp [aget_adel_self, hnd]

/-- A whitelisted caller number used by the C1 counterexample. -/
def wlCallerW : String := "+17775550000"

/-- The state after call.initiated for a whitelisted caller: the initial
store carries that number on the contacts whitelist. -/
def stateWlW : State :=
  (webhook cfgW {}
    { event_type := "call.initiated", ccid := "c2", caller_id := wlCallerW
      direction := "incoming" }
    { contacts := { approved_numbers := ["+17775550000"] } }).1

/-- C1 counterexample: the whitelist transfer at call.answered is a
terminal connect action — a transfer command is issued — yet the session
stays in the store, refuting "the session is removed on every terminal
action". -/
theorem C1_cex :
    Cmd.transfer "c2" (some "+15550001111") ∈
      (webhook cfgW {}
        { event_type := "call.answered", ccid := "c2", caller_id := wlCallerW
          direction := "incoming" } stateWlW).2 ∧
    (aget (webhook cfgW {}
        { event_type := "call.answered", ccid := "c2", caller_id := wlCallerW
          direction := "incoming" } stateWlW).1.sessions "c2").isSome = true := by
  decide

/-- Witness for C1: the hangup event and the operator FORWARD command at
concrete states remove the session. -/
theorem C1_witness :
    aget (handleHangup stateListenW "c4" callerW).1.sessions "c4" = none ∧
    aget (smsDispatch cfgW {}
        { sessions := [("c4", sessionListenW)], pending := [(callerW, "c4")] }
        "FORWARD").1.sessions "c4" = none := by
  have h1 := (C1_session_removal cfgW).2.2.2.2.2.2.2 stateListenW "c4" callerW (by decide)
  have h2 := (C1_session_removal cfgW).2.2.2.2.2.2.1 {}
    { sessions := [("c4", sessionListenW)], pending := [(callerW, "c4")] }
    callerW "c4" [] rfl (by decide)
  exact ⟨h1, h2.1⟩

end CallScreener
